import Mathlib

/-!
A shallow embedding, in Lean 4, of the SystemVerilog recursive-descent parser
found in `src/svlog/parser.rs` of the `moore` repository, together with
theorems settling the claims about its specification.

Modelling conventions:

* Machine state (`Parser`) is threaded explicitly: every Rust method taking
  `&mut self` becomes a Lean function `Parser → ... → result × Parser`.
* The lexer collaborator is modelled per the spec assumption: a finite list of
  `(token, span)` items (or lexer errors), after which the distinguished
  end-of-input token `Eof` is produced forever with a fixed span.  A ghost
  counter `calls` counts the `next_token` invocations, so that "no further
  lexer calls occur" is a statable property.
* Rust `Result<T, DiagBuilder2>` (`ParseResult`) becomes `Except Diag T`;
  Rust `Result<T, ()>` (`ReportedResult`) becomes `Except Unit T`.
* Every Rust loop or recursive function is given an explicit fuel argument
  and returns `Option _`; `none` marks fuel exhaustion.  A function that
  diverges in Rust corresponds to returning `none` for every fuel value.
  The internal queue-refill loop `ensure_queue_filled` instead computes a
  provably sufficient fuel internally, so the token-cursor primitives
  `peek`/`bump` remain total functions, as they are in Rust.
* Diagnostic messages keep the static text of the Rust format strings but
  drop the interpolated token/name fragments; no claim depends on the
  interpolated parts.  Printing (diagnostic rendering) is I/O and is not
  modelled; only the accumulated diagnostics list is.
* `begin`/`end` are lexed by moore as `OpenDelim(Bgend)`/`CloseDelim(Bgend)`;
  the token model mirrors that.
-/

namespace Moore

/-- Severity of a diagnostic, mirroring `DiagBuilder2`: warning, error or fatal. -/
inductive Severity where
  | Warning
  | Error
  | Fatal
deriving Repr, DecidableEq

/-- Source span `(begin, end)`; the `source` id is irrelevant to the parser logic. -/
structure Span where
  b : Nat
  e : Nat
deriving Repr, DecidableEq

/-- The `INVALID_SPAN` sentinel denoting "no location". -/
def INVALID_SPAN : Span := ⟨0, 0⟩

/-- `Span::expand`: grow a span to the covering span of both (spec §3: merging). -/
def Span.expand (s t : Span) : Span := ⟨Nat.min s.b t.b, Nat.max s.e t.e⟩

/-- `Span::end()`: the empty span at the end position. -/
def Span.endPoint (s : Span) : Span := ⟨s.e, s.e⟩

/-- A diagnostic: severity, message and optional span (`DiagBuilder2`). -/
structure Diag where
  severity : Severity
  msg : String
  sp : Option Span
deriving Repr, DecidableEq

def Diag.warning (m : String) : Diag := ⟨Severity.Warning, m, none⟩

def Diag.error (m : String) : Diag := ⟨Severity.Error, m, none⟩

def Diag.fatal (m : String) : Diag := ⟨Severity.Fatal, m, none⟩

/-- `.span(sp)` builder method of `DiagBuilder2`. -/
def Diag.span (d : Diag) (s : Span) : Diag := { d with sp := some s }

/-- Keywords used by the parser (subset of `svlog::token::Kw` that `parser.rs` touches). -/
inductive Kw where
  | Module | Interface | Endmodule | Endinterface
  | Static | Automatic
  | Parameter | Localparam | Modport
  | Initial | Always | AlwaysComb | AlwaysLatch | AlwaysFf | Final
  | Function | Task | Endfunction | Endtask
  | Input | Output | Inout | Ref
  | Supply0 | Supply1 | Tri | Triand | Trior | Trireg | Tri0 | Tri1
  | Uwire | Wire | Wand | Wor | Var
  | Bit | Logic | Reg | Byte | Shortint | Int | Longint | Integer | Time
  | Signed | Unsigned
  | Clocking | Fork | Join | JoinAny | JoinNone | Tagged
deriving Repr, DecidableEq

/-- Literal variants (`svlog::token::Lit`); payloads are control-flow irrelevant and dropped. -/
inductive Lit where
  | Str
  | Decimal
  | BasedInteger
  | UnbasedUnsized
deriving Repr, DecidableEq

/-- Delimiters: parentheses, brackets, braces, and the `begin`/`end` pair. -/
inductive Delim where
  | Paren
  | Brack
  | Brace
  | Bgend
deriving Repr, DecidableEq

/-- Tokens (`svlog::token::Token`); identifier names are interned as `Nat`. -/
inductive Token where
  | Keyword (kw : Kw)
  | Ident (n : Nat)
  | EscIdent (n : Nat)
  | SysIdent (n : Nat)
  | UnsignedNumber (n : Nat)
  | Literal (l : Lit)
  | OpenDelim (d : Delim)
  | CloseDelim (d : Delim)
  | Semicolon | Comma | Colon | AddColon | SubColon
  | Period | Namespace | Hashtag | Assign | Equal
  | Add | Sub | Mul | Div | Mod
  | Not | Neg | And | Nand | Or | Nor | Xor | Nxor | Xnor
  | Shl | Shr | Pow | Rarrow | Inc | Dec
  | Eof
deriving Repr, DecidableEq

/-- A `(token, span)` pair (`TokenAndSpan`). -/
abbrev TokenAndSpan := Token × Span

instance {ε α : Type} [DecidableEq ε] [DecidableEq α] : DecidableEq (Except ε α) := fun a b =>
  match a, b with
  | Except.ok x, Except.ok y =>
    if h : x = y then isTrue (by rw [h]) else isFalse (by simp [h])
  | Except.error x, Except.error y =>
    if h : x = y then isTrue (by rw [h]) else isFalse (by simp [h])
  | Except.ok _, Except.error _ => isFalse (by simp)
  | Except.error _, Except.ok _ => isFalse (by simp)

/-- The lexer collaborator: the remaining items it will produce (a lexer error
is forwarded as a diagnostic), after which it produces `(Eof, eofSpan)` forever
(spec §1: the end-of-input token, once produced, is repeated forever). -/
structure LexerSt where
  tokens : List (Except Diag TokenAndSpan)
  eofSpan : Span
deriving Repr, DecidableEq

/-- The parser state: lexer, buffered token queue (front = next unconsumed
token), accumulated diagnostics, span of the last consumed token, and a ghost
counter of `next_token` lexer calls. -/
structure Parser where
  input : LexerSt
  queue : List TokenAndSpan
  diagnostics : List Diag
  last_span : Span
  calls : Nat
deriving Repr, DecidableEq

/-- `Parser::new`: fresh state over a lexer producing `tokens` then `Eof` forever. -/
def Parser.new (tokens : List TokenAndSpan) (eofSpan : Span) : Parser :=
  { input := ⟨tokens.map Except.ok, eofSpan⟩
    queue := []
    diagnostics := []
    last_span := INVALID_SPAN
    calls := 0 }

/-- `add_diag`: append a diagnostic (rendering is I/O and not modelled). -/
def Parser.add_diag (p : Parser) (d : Diag) : Parser :=
  { p with diagnostics := p.diagnostics ++ [d] }

/-- Whether the back of the queue is the end-of-input token
(the early-return test of `ensure_queue_filled`). -/
def Parser.hasEofBack (p : Parser) : Bool :=
  match p.queue.getLast? with
  | some (Token.Eof, _) => true
  | _ => false

/-- The `while self.queue.len() <= min_tokens` refill loop of
`ensure_queue_filled`.  Each iteration performs one `next_token` call
(counted in `calls`): a lexer error is forwarded to the diagnostics, any
produced token (including `Eof`) is pushed at the back.  The explicit fuel is
supplied by `ensure_queue_filled` and proven sufficient below. -/
def Parser.fillLoop : Nat → Parser → Nat → Parser
  | 0, p, _ => p
  | fuel + 1, p, minTokens =>
    if p.queue.length ≤ minTokens then
      match p.input.tokens with
      | [] =>
        Parser.fillLoop fuel
          { p with queue := p.queue ++ [(Token.Eof, p.input.eofSpan)], calls := p.calls + 1 }
          minTokens
      | Except.ok ts :: rest =>
        Parser.fillLoop fuel
          { p with input := { p.input with tokens := rest }, queue := p.queue ++ [ts],
                   calls := p.calls + 1 }
          minTokens
      | Except.error d :: rest =>
        Parser.fillLoop fuel
          (Parser.add_diag
            { p with input := { p.input with tokens := rest }, calls := p.calls + 1 } d)
          minTokens
    else p

/-- `ensure_queue_filled`: return immediately if the queue already ends in
`Eof`; otherwise refill until more than `min_tokens` tokens are buffered. -/
def Parser.ensure_queue_filled (p : Parser) (minTokens : Nat) : Parser :=
  if p.hasEofBack then p
  else Parser.fillLoop (p.input.tokens.length + minTokens + 2) p minTokens

/-- The token `peek` would return, as an `Option`: `queue[offset]` when in
range, otherwise the back of the queue.  `none` models the `expect` panic of
the Rust source; it is proven unreachable (claim C10). -/
def Parser.peekCore (p : Parser) (offset : Nat) : Option TokenAndSpan :=
  let p1 := p.ensure_queue_filled offset
  if offset < p1.queue.length then p1.queue[offset]? else p1.queue.getLast?

/-- Sentinel standing in for the `expect` panic in `peek`; proven unreachable. -/
def PANIC_TOKEN : TokenAndSpan := (Token.Eof, INVALID_SPAN)

/-- `peek(offset)`: look at the token `offset` positions ahead without
consuming it, refilling the queue as needed. -/
def Parser.peek (p : Parser) (offset : Nat) : TokenAndSpan × Parser :=
  let p1 := p.ensure_queue_filled offset
  ((if offset < p1.queue.length then p1.queue[offset]? else p1.queue.getLast?).getD PANIC_TOKEN,
   p1)

/-- The refill step of `bump`: if the queue is empty, fill it first. -/
def Parser.bumpFilled (p : Parser) : Parser :=
  if p.queue.isEmpty then p.ensure_queue_filled 1 else p

/-- `bump`: consume one token, recording its span as `last_span`.  The `[]`
branch mirrors Rust's silent `if let Some(..) = pop_front()` miss; claim C10
shows it is unreachable. -/
def Parser.bump (p : Parser) : Parser :=
  let p1 := p.bumpFilled
  match p1.queue with
  | (_, sp) :: rest => { p1 with queue := rest, last_span := sp }
  | [] => p1

/-- `try_eat_ident`: eat and return a plain or escaped identifier, if next. -/
def Parser.try_eat_ident (p : Parser) : Option (Nat × Span) × Parser :=
  match p.peek 0 with
  | ((Token.Ident n, sp), p1) => (some (n, sp), p1.bump)
  | ((Token.EscIdent n, sp), p1) => (some (n, sp), p1.bump)
  | (_, p1) => (none, p1)

/-- `eat_ident_or`: eat an identifier or return (without emitting) an error diagnostic. -/
def Parser.eat_ident_or (p : Parser) (msg : String) : Except Diag (Nat × Span) × Parser :=
  match p.peek 0 with
  | ((Token.Ident n, sp), p1) => (Except.ok (n, sp), p1.bump)
  | ((Token.EscIdent n, sp), p1) => (Except.ok (n, sp), p1.bump)
  | ((_, sp), p1) => (Except.error ((Diag.error ("Expected " ++ msg)).span sp), p1)

/-- `eat_ident`: eat an identifier or emit an error diagnostic. -/
def Parser.eat_ident (p : Parser) (msg : String) : Except Unit (Nat × Span) × Parser :=
  match p.peek 0 with
  | ((Token.Ident n, sp), p1) => (Except.ok (n, sp), p1.bump)
  | ((Token.EscIdent n, sp), p1) => (Except.ok (n, sp), p1.bump)
  | ((_, sp), p1) => (Except.error (), p1.add_diag ((Diag.error ("Expected " ++ msg)).span sp))

/-- `require`: eat exactly the expected token or return an unemitted error. -/
def Parser.require (p : Parser) (expect : Token) : Except Diag Unit × Parser :=
  match p.peek 0 with
  | ((actual, sp), p1) =>
    if actual = expect then (Except.ok (), p1.bump)
    else (Except.error ((Diag.error "Expected token, but found a different token instead").span sp), p1)

/-- `require_reported`: like `require` but emit the error. -/
def Parser.require_reported (p : Parser) (expect : Token) : Except Unit Unit × Parser :=
  match p.require expect with
  | (Except.ok _, p1) => (Except.ok (), p1)
  | (Except.error e, p1) => (Except.error (), p1.add_diag e)

/-- `try_eat`: eat the expected token if it is next; report whether it was eaten. -/
def Parser.try_eat (p : Parser) (expect : Token) : Bool × Parser :=
  match p.peek 0 with
  | ((actual, _), p1) => if actual = expect then (true, p1.bump) else (false, p1)

/-- `recover`: skip tokens until one of `terminators` or `Eof` is next,
optionally consuming the terminator. -/
def Parser.recover : Nat → Parser → List Token → Bool → Option Parser
  | 0, _, _, _ => none
  | fuel + 1, p, terminators, eatTerm =>
    match p.peek 0 with
    | ((Token.Eof, _), p1) => some p1
    | ((tkn, _), p1) =>
      if tkn ∈ terminators then (if eatTerm then some p1.bump else some p1)
      else Parser.recover fuel p1.bump terminators eatTerm

/-- The loop of `recover_balanced` with its explicit open-delimiter stack.
A terminator is honored only while the stack is empty; a matched closing
delimiter pops; a mismatched or unmatched closing delimiter emits an error and
stops early without consuming it; `Eof` stops. -/
def Parser.recover_balanced_loop :
    Nat → Parser → List Token → Bool → List Delim → Option Parser
  | 0, _, _, _, _ => none
  | fuel + 1, p, terminators, eatTerm, stack =>
    match p.peek 0 with
    | ((tkn, sp), p1) =>
      if stack.isEmpty ∧ tkn ∈ terminators then
        (if eatTerm then some p1.bump else some p1)
      else
        match tkn with
        | Token.OpenDelim x =>
          Parser.recover_balanced_loop fuel p1.bump terminators eatTerm (x :: stack)
        | Token.CloseDelim x =>
          match stack with
          | opened :: rest =>
            if opened = x then
              Parser.recover_balanced_loop fuel p1.bump terminators eatTerm rest
            else
              some (p1.add_diag ((Diag.error
                "Found closing delimiter which is not the complement to the previous opening delimiter").span sp))
          | [] =>
            some (p1.add_diag ((Diag.error
              "Found closing delimiter without an earlier opening delimiter").span sp))
        | Token.Eof => some p1
        | _ => Parser.recover_balanced_loop fuel p1.bump terminators eatTerm stack

/-- `recover_balanced`: balanced-skip recovery starting with an empty stack. -/
def Parser.recover_balanced (fuel : Nat) (p : Parser) (terminators : List Token)
    (eatTerm : Bool) : Option Parser :=
  Parser.recover_balanced_loop fuel p terminators eatTerm []

/-! ### AST node shapes (`svlog::ast`), to the extent `parser.rs` builds them -/

/-- Lifetime of a module/interface (`static` is the default). -/
inductive Lifetime where
  | Static
  | Automatic
deriving Repr, DecidableEq

/-- Port directions. -/
inductive PortDir where
  | Input
  | Output
  | Inout
  | Ref
deriving Repr, DecidableEq

/-- Port kinds: net or variable. -/
inductive PortKind where
  | NetPort
  | VarPort
deriving Repr, DecidableEq

/-- Sign qualifier of a data type. -/
inductive TypeSign where
  | None
  | Signed
  | Unsigned
deriving Repr, DecidableEq

/-- Dimension suffix forms of a data type. -/
inductive TypeDim where
  | Unsized
  | Associative
  | Expr
  | Range
deriving Repr, DecidableEq

/-- Core data of a type as produced by `parse_data_type`. -/
inductive TypeData where
  | BitType
  | LogicType
  | RegType
  | ByteType
  | ShortIntType
  | IntType
  | LongIntType
  | TimeType
  | NamedType (n : Nat)
  | ImplicitType
deriving Repr, DecidableEq

/-- The `Type` AST node (`Type` is reserved in Lean, hence `AstType`). -/
structure AstType where
  span : Span
  data : TypeData
  sign : TypeSign
  dims : List TypeDim
deriving Repr, DecidableEq

/-- One port of a module or interface. -/
structure Port where
  span : Span
  name : Nat
  name_span : Span
  kind : PortKind
  ty : AstType
  dir : PortDir
  dims : List TypeDim
deriving Repr, DecidableEq

/-- A module declaration. -/
structure ModDecl where
  span : Span
  lifetime : Lifetime
  name : Nat
  name_span : Span
  ports : List Port
deriving Repr, DecidableEq

/-- An interface declaration. -/
structure IntfDecl where
  span : Span
  lifetime : Lifetime
  name : Nat
  name_span : Span
  ports : List Port
deriving Repr, DecidableEq

/-- Join kinds of a parallel (`fork`) block. -/
inductive JoinKind where
  | All
  | Any
  | None
deriving Repr, DecidableEq

/-- Kinds of structured procedures (IEEE 1800-2009 §9.2). -/
inductive ProcedureKind where
  | Initial
  | Always
  | AlwaysComb
  | AlwaysLatch
  | AlwaysFf
  | Final
deriving Repr, DecidableEq

mutual

/-- A statement: span, optional label and payload. -/
inductive Stmt where
  | mk (span : Span) (label : Option Nat) (data : StmtData)

/-- Statement payloads implemented by the parser. -/
inductive StmtData where
  | NullStmt
  | SequentialBlock (stmts : List Stmt)
  | ParallelBlock (stmts : List Stmt) (join : JoinKind)

end

/-- Label accessor of a statement. -/
def Stmt.label : Stmt → Option Nat
  | Stmt.mk _ l _ => l

/-- Payload accessor of a statement. -/
def Stmt.data : Stmt → StmtData
  | Stmt.mk _ _ d => d

/-- `Stmt::new_null`. -/
def Stmt.new_null (span : Span) : Stmt := Stmt.mk span none StmtData.NullStmt

/-- A structured procedure. -/
structure Procedure where
  span : Span
  kind : ProcedureKind
  stmt : Stmt

/-! ### Keyword classification helpers -/

/-- `as_lifetime`: the lifetime denoted by a token, if any. -/
def as_lifetime (tkn : Token) : Option Lifetime :=
  match tkn with
  | Token.Keyword Kw.Static => some Lifetime.Static
  | Token.Keyword Kw.Automatic => some Lifetime.Automatic
  | _ => none

/-- `as_port_direction`: the port direction denoted by a token, if any. -/
def as_port_direction (tkn : Token) : Option PortDir :=
  match tkn with
  | Token.Keyword Kw.Input => some PortDir.Input
  | Token.Keyword Kw.Output => some PortDir.Output
  | Token.Keyword Kw.Inout => some PortDir.Inout
  | Token.Keyword Kw.Ref => some PortDir.Ref
  | _ => none

/-! ### Constant expressions and data types -/

/-- `parse_constant_expr`: an optional unary operator, then a constant primary,
then optionally a binary operator followed by another constant expression. -/
def parse_constant_expr : Nat → Parser → Option (Except Unit Unit × Parser)
  | 0, _ => none
  | fuel + 1, p =>
    match p.peek 0 with
    | ((tkn, span), p) =>
      let isUnary : Bool :=
        match tkn with
        | Token.Add | Token.Sub | Token.Not | Token.Neg | Token.And
        | Token.Nand | Token.Or | Token.Xor | Token.Nxor | Token.Xnor => true
        | _ => false
      if isUnary then
        parse_constant_expr fuel p.bump
      else
        let primRes : Except Unit Unit × Parser :=
          match tkn with
          | Token.UnsignedNumber _ => (Except.ok (), p.bump)
          | Token.Literal Lit.Str => (Except.ok (), p.bump)
          | Token.Literal Lit.BasedInteger => (Except.ok (), p.bump)
          | Token.Literal Lit.UnbasedUnsized => (Except.ok (), p.bump)
          | Token.Ident _ => (Except.ok (), p.bump)
          | _ =>
            (Except.error (),
             p.add_diag ((Diag.error "Expected constant primary expression").span span))
        match primRes with
        | (Except.error e, p) => some (Except.error e, p)
        | (Except.ok _, p) =>
          match p.peek 0 with
          | ((tkn2, _), p) =>
            let isBinary : Bool :=
              match tkn2 with
              | Token.Add | Token.Sub | Token.Mul | Token.Div | Token.Mod
              | Token.And | Token.Or | Token.Xor | Token.Xnor | Token.Nxor => true
              | _ => false
            if isBinary then
              parse_constant_expr fuel p.bump
            else
              some (Except.ok (), p)

/-- `try_dimension`: attempt one `[...]` dimension suffix. -/
def try_dimension : Nat → Parser → Option (Except Unit (Option (TypeDim × Span)) × Parser)
  | 0, _ => none
  | fuel + 1, p =>
    match p.try_eat (Token.OpenDelim Delim.Brack) with
    | (false, p) => some (Except.ok none, p)
    | (true, p) =>
      let span0 := p.last_span
      let dimRes : Option (Except Unit TypeDim × Parser) :=
        match p.peek 0 with
        | ((Token.CloseDelim Delim.Brack, _), p) => some (Except.ok TypeDim.Unsized, p.bump)
        | ((Token.Mul, _), p) => some (Except.ok TypeDim.Associative, p.bump)
        | (_, p) =>
          match parse_constant_expr fuel p with
          | none => none
          | some (Except.error _, p) =>
            match Parser.recover_balanced fuel p [Token.CloseDelim Delim.Brack] true with
            | none => none
            | some p => some (Except.error (), p)
          | some (Except.ok _, p) =>
            match p.try_eat Token.Colon with
            | (false, p) => some (Except.ok TypeDim.Expr, p)
            | (true, p) =>
              match parse_constant_expr fuel p with
              | none => none
              | some (Except.error _, p) =>
                match Parser.recover_balanced fuel p [Token.CloseDelim Delim.Brack] true with
                | none => none
                | some p => some (Except.error (), p)
              | some (Except.ok _, p) => some (Except.ok TypeDim.Range, p)
      match dimRes with
      | none => none
      | some (Except.error e, p) => some (Except.error e, p)
      | some (Except.ok dim, p) =>
        match p.peek 0 with
        | ((Token.CloseDelim Delim.Brack, sp), p) =>
          some (Except.ok (some (dim, span0.expand sp)), p.bump)
        | ((_, sp), p) =>
          some (Except.error (),
            p.add_diag ((Diag.error "Expected closing brackets after dimension").span sp))

/-- The `while let Some(..) = try_dimension(p)?` tail loop of
`parse_optional_dimensions`. -/
def pod_loop : Nat → Parser → List TypeDim → Span →
    Option (Except Unit (List TypeDim × Span) × Parser)
  | 0, _, _, _ => none
  | fuel + 1, p, v, span =>
    match try_dimension fuel p with
    | none => none
    | some (Except.error e, p) => some (Except.error e, p)
    | some (Except.ok none, p) => some (Except.ok (v, span), p)
    | some (Except.ok (some (d, sp)), p) => pod_loop fuel p (v ++ [d]) (span.expand sp)

/-- `parse_optional_dimensions`: zero or more dimension suffixes with their
covering span (`INVALID_SPAN` when there are none). -/
def parse_optional_dimensions : Nat → Parser →
    Option (Except Unit (List TypeDim × Span) × Parser)
  | 0, _ => none
  | fuel + 1, p =>
    match try_dimension fuel p with
    | none => none
    | some (Except.error e, p) => some (Except.error e, p)
    | some (Except.ok none, p) => some (Except.ok ([], INVALID_SPAN), p)
    | some (Except.ok (some (d, sp)), p) => pod_loop fuel p [d] sp

/-- `parse_data_type`: decide the core type from the leading token (keyword
`integer` maps to `IntType`, like `int`), consume it unless implicit, then
parse the optional sign and dimension suffixes. -/
def parse_data_type : Nat → Parser → Option (Except Unit AstType × Parser)
  | 0, _ => none
  | fuel + 1, p =>
    match p.peek 0 with
    | ((tkn, span0), p) =>
      let dataRes : Except Unit TypeData × Parser :=
        match tkn with
        | Token.Keyword kw =>
          match kw with
          | Kw.Bit => (Except.ok TypeData.BitType, p)
          | Kw.Logic => (Except.ok TypeData.LogicType, p)
          | Kw.Reg => (Except.ok TypeData.RegType, p)
          | Kw.Byte => (Except.ok TypeData.ByteType, p)
          | Kw.Shortint => (Except.ok TypeData.ShortIntType, p)
          | Kw.Int => (Except.ok TypeData.IntType, p)
          | Kw.Longint => (Except.ok TypeData.LongIntType, p)
          | Kw.Integer => (Except.ok TypeData.IntType, p)
          | Kw.Time => (Except.ok TypeData.TimeType, p)
          | _ =>
            (Except.error (),
             p.add_diag ((Diag.error "Expected data type, found keyword").span span0))
        | Token.Ident n => (Except.ok (TypeData.NamedType n), p)
        | Token.EscIdent n => (Except.ok (TypeData.NamedType n), p)
        | _ => (Except.ok TypeData.ImplicitType, p)
      match dataRes with
      | (Except.error e, p) => some (Except.error e, p)
      | (Except.ok data, p) =>
        let p := if data ≠ TypeData.ImplicitType then p.bump else p
        let signRes : TypeSign × Span × Parser :=
          match p.peek 0 with
          | ((Token.Keyword Kw.Signed, q), p) => (TypeSign.Signed, span0.expand q, p.bump)
          | ((Token.Keyword Kw.Unsigned, q), p) => (TypeSign.Unsigned, span0.expand q, p.bump)
          | (_, p) => (TypeSign.None, span0, p)
        match signRes with
        | (sign, span1, p) =>
          match parse_optional_dimensions fuel p with
          | none => none
          | some (Except.error e, p) => some (Except.error e, p)
          | some (Except.ok (dims, dims_span), p) =>
            let span2 := if dims.isEmpty then span1 else span1.expand dims_span
            some (Except.ok { span := span2, data := data, sign := sign, dims := dims }, p)

/-! ### Expression parser (precedence climbing) -/

/-- Operator precedence levels, in the variant order of the source. -/
inductive Precedence where
  | Min | Concatenation | Assignment | Implication | Ternary
  | LogicOr | LogicAnd | BinOr | BinXor | BinAnd
  | Equality | Relational | Shift | Add | Mul | Pow
  | Unary | Scope | Max
deriving Repr, DecidableEq

/-- Numeric rank of a precedence level (the derived `PartialOrd` of the source). -/
def Precedence.toNat : Precedence → Nat
  | Precedence.Min => 0
  | Precedence.Concatenation => 1
  | Precedence.Assignment => 2
  | Precedence.Implication => 3
  | Precedence.Ternary => 4
  | Precedence.LogicOr => 5
  | Precedence.LogicAnd => 6
  | Precedence.BinOr => 7
  | Precedence.BinXor => 8
  | Precedence.BinAnd => 9
  | Precedence.Equality => 10
  | Precedence.Relational => 11
  | Precedence.Shift => 12
  | Precedence.Add => 13
  | Precedence.Mul => 14
  | Precedence.Pow => 15
  | Precedence.Unary => 16
  | Precedence.Scope => 17
  | Precedence.Max => 18

/-- The `<=` comparison on precedences. -/
def precLE (a b : Precedence) : Bool := a.toNat ≤ b.toNat

/-- Unary operators; most map to the placeholder variant `Stuff` in the source. -/
inductive UnaryOp where
  | Add
  | Sub
  | Stuff
deriving Repr, DecidableEq

/-- Binary operators; `as_binary_operator` only ever produces `Stuff`. -/
inductive BinaryOp where
  | Add | Sub | Mul | Div | Mod | Shl | Shr | Pow | Stuff
deriving Repr, DecidableEq

/-- `BinaryOp::get_precedence`. -/
def BinaryOp.get_precedence : BinaryOp → Precedence
  | BinaryOp.Add | BinaryOp.Sub => Precedence.Add
  | BinaryOp.Mul | BinaryOp.Div | BinaryOp.Mod => Precedence.Mul
  | BinaryOp.Shl | BinaryOp.Shr => Precedence.Shift
  | BinaryOp.Pow => Precedence.Pow
  | BinaryOp.Stuff => Precedence.Add

/-- `as_unary_operator`. -/
def as_unary_operator (tkn : Token) : Option UnaryOp :=
  match tkn with
  | Token.Add => some UnaryOp.Add
  | Token.Sub => some UnaryOp.Sub
  | Token.Not => some UnaryOp.Stuff
  | Token.Neg => some UnaryOp.Stuff
  | Token.And => some UnaryOp.Stuff
  | Token.Nand => some UnaryOp.Stuff
  | Token.Or => some UnaryOp.Stuff
  | Token.Nor => some UnaryOp.Stuff
  | Token.Xor => some UnaryOp.Stuff
  | Token.Nxor => some UnaryOp.Stuff
  | Token.Xnor => some UnaryOp.Stuff
  | _ => none

/-- `as_binary_operator`. -/
def as_binary_operator (tkn : Token) : Option BinaryOp :=
  match tkn with
  | Token.Add => some BinaryOp.Stuff
  | Token.Sub => some BinaryOp.Stuff
  | Token.Mul => some BinaryOp.Stuff
  | Token.Div => some BinaryOp.Stuff
  | Token.Mod => some BinaryOp.Stuff
  | Token.Shl => some BinaryOp.Stuff
  | Token.Shr => some BinaryOp.Stuff
  | Token.Pow => some BinaryOp.Stuff
  | Token.Rarrow => some BinaryOp.Stuff
  | _ => none

mutual

/-- `parse_expr`: entry point at minimum precedence. -/
def parse_expr : Nat → Parser → Option (Except Unit Unit × Parser)
  | 0, _ => none
  | fuel + 1, p => parse_expr_prec fuel p Precedence.Min

/-- `parse_expr_prec`: parse a prefix, then postfix forms (index, call, member,
scope, increment/decrement) and trailing binary operators subject to the
minimum precedence. -/
def parse_expr_prec : Nat → Parser → Precedence → Option (Except Unit Unit × Parser)
  | 0, _, _ => none
  | fuel + 1, p, precedence =>
    match parse_expr_first fuel p precedence with
    | none => none
    | some (Except.error e, p) => some (Except.error e, p)
    | some (Except.ok _, p) =>
      match p.peek 0 with
      | ((tkn, sp), p) =>
        match tkn with
        | Token.OpenDelim Delim.Brack =>
          if precLE precedence Precedence.Scope then
            let p := p.bump
            match parse_range_expr fuel p with
            | none => none
            | some (Except.error e, p) =>
              match Parser.recover_balanced fuel p [Token.CloseDelim Delim.Brack] true with
              | none => none
              | some p => some (Except.error e, p)
            | some (Except.ok _, p) =>
              match p.require_reported (Token.CloseDelim Delim.Brack) with
              | (Except.error e, p) => some (Except.error e, p)
              | (Except.ok _, p) => some (Except.ok (), p)
          else parse_expr_prec_tail fuel p precedence tkn
        | Token.OpenDelim Delim.Paren =>
          if precLE precedence Precedence.Scope then
            let p := p.bump
            let p := p.add_diag ((Diag.error "Do not know how to handle call expressions").span sp)
            match Parser.recover_balanced fuel p [Token.CloseDelim Delim.Paren] true with
            | none => none
            | some p => some (Except.ok (), p)
          else parse_expr_prec_tail fuel p precedence tkn
        | Token.Period =>
          if precLE precedence Precedence.Scope then
            let p := p.bump
            match p.eat_ident "member name" with
            | (Except.error e, p) => some (Except.error e, p)
            | (Except.ok _, p) => some (Except.ok (), p)
          else parse_expr_prec_tail fuel p precedence tkn
        | Token.Namespace =>
          if precLE precedence Precedence.Scope then
            let p := p.bump
            match p.eat_ident "scope name" with
            | (Except.error e, p) => some (Except.error e, p)
            | (Except.ok _, p) => some (Except.ok (), p)
          else parse_expr_prec_tail fuel p precedence tkn
        | Token.Inc =>
          if precLE precedence Precedence.Unary then some (Except.ok (), p.bump)
          else parse_expr_prec_tail fuel p precedence tkn
        | Token.Dec =>
          if precLE precedence Precedence.Unary then some (Except.ok (), p.bump)
          else parse_expr_prec_tail fuel p precedence tkn
        | _ => parse_expr_prec_tail fuel p precedence tkn

/-- The trailing binary-operator check shared by the fall-through arms of
`parse_expr_prec` (the `if let Some(op) = as_binary_operator(..)` tail). -/
def parse_expr_prec_tail : Nat → Parser → Precedence → Token →
    Option (Except Unit Unit × Parser)
  | 0, _, _, _ => none
  | fuel + 1, p, precedence, tkn =>
    match as_binary_operator tkn with
    | some op =>
      let prec := op.get_precedence
      if precLE precedence prec then
        let p := p.bump
        match parse_expr_prec fuel p prec with
        | none => none
        | some (Except.error e, p) => some (Except.error e, p)
        | some (Except.ok _, p) => some (Except.ok (), p)
      else some (Except.ok (), p)
    | none => some (Except.ok (), p)

/-- `parse_expr_first`: leading increment/decrement, `tagged` (unimplemented),
unary operators, otherwise a primary expression. -/
def parse_expr_first : Nat → Parser → Precedence → Option (Except Unit Unit × Parser)
  | 0, _, _ => none
  | fuel + 1, p, precedence =>
    match p.peek 0 with
    | ((tkn0, sp0), p) =>
      if (tkn0 = Token.Inc ∨ tkn0 = Token.Dec) ∧ precLE precedence Precedence.Unary then
        match parse_expr_prec fuel p.bump Precedence.Unary with
        | none => none
        | some (Except.error e, p) => some (Except.error e, p)
        | some (Except.ok _, p) => some (Except.ok (), p)
      else if tkn0 = Token.Keyword Kw.Tagged then
        some (Except.error (),
          p.add_diag ((Diag.error "Tagged union expressions not implemented").span sp0))
      else
        match as_unary_operator tkn0 with
        | some _ =>
          match parse_primary_expr fuel p.bump with
          | none => none
          | some (Except.error e, p) => some (Except.error e, p)
          | some (Except.ok _, p) => some (Except.ok (), p)
        | none => parse_primary_expr fuel p

/-- `parse_primary_expr`: literals, identifiers, concatenations in braces and
parenthesized expressions. -/
def parse_primary_expr : Nat → Parser → Option (Except Unit Unit × Parser)
  | 0, _ => none
  | fuel + 1, p =>
    match p.peek 0 with
    | ((tkn, sp), p) =>
      match tkn with
      | Token.UnsignedNumber _ => some (Except.ok (), p.bump)
      | Token.Literal Lit.Str => some (Except.ok (), p.bump)
      | Token.Literal Lit.Decimal => some (Except.ok (), p.bump)
      | Token.Literal Lit.BasedInteger => some (Except.ok (), p.bump)
      | Token.Literal Lit.UnbasedUnsized => some (Except.ok (), p.bump)
      | Token.Ident _ => some (Except.ok (), p.bump)
      | Token.EscIdent _ => some (Except.ok (), p.bump)
      | Token.SysIdent _ => some (Except.ok (), p.bump)
      | Token.OpenDelim Delim.Brace =>
        let p := p.bump
        match p.try_eat (Token.CloseDelim Delim.Brace) with
        | (true, p) =>
          some (Except.ok (),
            p.add_diag ((Diag.error "Do not know what to do with an empty queue").span sp))
        | (false, p) =>
          match parse_concat_expr fuel p with
          | none => none
          | some (Except.error e, p) =>
            match Parser.recover_balanced fuel p [Token.CloseDelim Delim.Brace] true with
            | none => none
            | some p => some (Except.error e, p)
          | some (Except.ok _, p) =>
            match p.require_reported (Token.CloseDelim Delim.Brace) with
            | (Except.error e, p) => some (Except.error e, p)
            | (Except.ok _, p) => some (Except.ok (), p)
      | Token.OpenDelim Delim.Paren =>
        let p := p.bump
        match parse_primary_parenthesis fuel p with
        | none => none
        | some (Except.error e, p) =>
          match Parser.recover_balanced fuel p [Token.CloseDelim Delim.Paren] true with
          | none => none
          | some p => some (Except.error e, p)
        | some (Except.ok _, p) =>
          match p.require_reported (Token.CloseDelim Delim.Paren) with
          | (Except.error e, p) => some (Except.error e, p)
          | (Except.ok _, p) => some (Except.ok (), p)
      | _ =>
        some (Except.error (), p.add_diag ((Diag.error "Expected primary expression").span sp))

/-- `parse_concat_expr` (after the opening `{`): streaming concatenation is
unimplemented; otherwise a first expression, then either a multiple
concatenation `{n{...}}` or a comma-separated list. -/
def parse_concat_expr : Nat → Parser → Option (Except Unit Unit × Parser)
  | 0, _ => none
  | fuel + 1, p =>
    match p.peek 0 with
    | ((tkn, _), p) =>
      let stream : Bool :=
        match tkn with
        | Token.Shl => true
        | Token.Shr => true
        | _ => false
      if stream then
        match p.peek 0 with
        | ((_, q), p) =>
          some (Except.error (),
            p.add_diag ((Diag.error "Do not know how to handle streaming concatenation").span q))
      else
        match parse_expr_prec fuel p Precedence.Concatenation with
        | none => none
        | some (Except.error e, p) => some (Except.error e, p)
        | some (Except.ok _, p) =>
          match p.try_eat (Token.OpenDelim Delim.Brace) with
          | (true, p) =>
            match parse_expr_list fuel p [] with
            | none => none
            | some (Except.error e, p) =>
              match Parser.recover_balanced fuel p [Token.CloseDelim Delim.Brace] true with
              | none => none
              | some p => some (Except.error e, p)
            | some (Except.ok _, p) =>
              match p.require_reported (Token.CloseDelim Delim.Brace) with
              | (Except.error e, p) => some (Except.error e, p)
              | (Except.ok _, p) => some (Except.ok (), p)
          | (false, p) => concat_comma_loop fuel p

/-- The `while p.try_eat(Comma)` tail loop of `parse_concat_expr`. -/
def concat_comma_loop : Nat → Parser → Option (Except Unit Unit × Parser)
  | 0, _ => none
  | fuel + 1, p =>
    match p.try_eat Token.Comma with
    | (false, p) => some (Except.ok (), p)
    | (true, p) =>
      match p.peek 0 with
      | ((Token.CloseDelim Delim.Brace, q), p) =>
        some (Except.ok (), p.add_diag ((Diag.warning "Superfluous trailing comma").span q))
      | (_, p) =>
        match parse_expr_prec fuel p Precedence.Max with
        | none => none
        | some (Except.error e, p) => some (Except.error e, p)
        | some (Except.ok _, p) => concat_comma_loop fuel p

/-- `parse_expr_list`: expressions of a multiple concatenation, separated by
commas, terminated by a closing brace. -/
def parse_expr_list : Nat → Parser → List Unit → Option (Except Unit (List Unit) × Parser)
  | 0, _, _ => none
  | fuel + 1, p, v =>
    match parse_expr_prec fuel p Precedence.Max with
    | none => none
    | some (Except.error e, p) => some (Except.error e, p)
    | some (Except.ok x, p) =>
      let v := v ++ [x]
      match p.peek 0 with
      | ((Token.Comma, sp), p) =>
        let p := p.bump
        match p.peek 0 with
        | ((Token.CloseDelim Delim.Brace, _), p) =>
          some (Except.ok v, p.add_diag ((Diag.warning "Superfluous trailing comma").span sp))
        | (_, p) => parse_expr_list fuel p v
      | ((Token.CloseDelim Delim.Brace, _), p) => some (Except.ok v, p)
      | ((_, sp), p) =>
        some (Except.error (),
          p.add_diag ((Diag.error "Expected comma or closing brace after expression").span sp))

/-- `parse_primary_parenthesis`: an expression, optionally a `min:typ:max` triple. -/
def parse_primary_parenthesis : Nat → Parser → Option (Except Unit Unit × Parser)
  | 0, _ => none
  | fuel + 1, p =>
    match parse_expr_prec fuel p Precedence.Scope with
    | none => none
    | some (Except.error e, p) => some (Except.error e, p)
    | some (Except.ok _, p) =>
      match p.try_eat Token.Colon with
      | (false, p) => some (Except.ok (), p)
      | (true, p) =>
        match parse_expr_prec fuel p Precedence.Scope with
        | none => none
        | some (Except.error e, p) => some (Except.error e, p)
        | some (Except.ok _, p) =>
          match p.require_reported Token.Colon with
          | (Except.error e, p) => some (Except.error e, p)
          | (Except.ok _, p) =>
            match parse_expr_prec fuel p Precedence.Scope with
            | none => none
            | some (Except.error e, p) => some (Except.error e, p)
            | some (Except.ok _, p) => some (Except.ok (), p)

/-- `parse_range_expr`: an expression, optionally `:`/`+:`/`-:` and another. -/
def parse_range_expr : Nat → Parser → Option (Except Unit Unit × Parser)
  | 0, _ => none
  | fuel + 1, p =>
    match parse_expr fuel p with
    | none => none
    | some (Except.error e, p) => some (Except.error e, p)
    | some (Except.ok _, p) =>
      match p.peek 0 with
      | ((Token.Colon, _), p) =>
        match parse_expr fuel p.bump with
        | none => none
        | some (Except.error e, p) => some (Except.error e, p)
        | some (Except.ok _, p) => some (Except.ok (), p)
      | ((Token.AddColon, _), p) =>
        match parse_expr fuel p.bump with
        | none => none
        | some (Except.error e, p) => some (Except.error e, p)
        | some (Except.ok _, p) => some (Except.ok (), p)
      | ((Token.SubColon, _), p) =>
        match parse_expr fuel p.bump with
        | none => none
        | some (Except.error e, p) => some (Except.error e, p)
        | some (Except.ok _, p) => some (Except.ok (), p)
      | (_, p) => some (Except.ok (), p)

end

/-! ### Port connections and parameter assignments -/

mutual

/-- The item loop of `parse_list_of_port_connections`.  The source never
pushes into its `v` vector, so the result list stays empty. -/
def plopc_loop : Nat → Parser → Option (Except Unit (List Unit) × Parser)
  | 0, _ => none
  | fuel + 1, p =>
    match p.try_eat Token.Period with
    | (true, p) =>
      match p.try_eat Token.Mul with
      | (true, p) =>
        let p := p.add_diag
          ((Diag.error "Do not know how to handle dot star port connections").span p.last_span)
        plopc_sep fuel p
      | (false, p) =>
        match p.eat_ident "port name" with
        | (Except.error e, p) => some (Except.error e, p)
        | (Except.ok _, p) =>
          match p.try_eat (Token.OpenDelim Delim.Paren) with
          | (false, p) => plopc_sep fuel p
          | (true, p) =>
            match p.try_eat (Token.CloseDelim Delim.Paren) with
            | (true, p) => plopc_sep fuel p
            | (false, p) =>
              match parse_expr fuel p with
              | none => none
              | some (Except.ok _, p) =>
                match p.require_reported (Token.CloseDelim Delim.Paren) with
                | (Except.error e, p) => some (Except.error e, p)
                | (Except.ok _, p) => plopc_sep fuel p
              | some (Except.error _, p) =>
                match Parser.recover_balanced fuel p [Token.CloseDelim Delim.Paren] false with
                | none => none
                | some p =>
                  match p.require_reported (Token.CloseDelim Delim.Paren) with
                  | (Except.error e, p) => some (Except.error e, p)
                  | (Except.ok _, p) => plopc_sep fuel p
    | (false, p) =>
      match parse_expr fuel p with
      | none => none
      | some (Except.error e, p) => some (Except.error e, p)
      | some (Except.ok _, p) => plopc_sep fuel p

/-- The separator check of `parse_list_of_port_connections`. -/
def plopc_sep : Nat → Parser → Option (Except Unit (List Unit) × Parser)
  | 0, _ => none
  | fuel + 1, p =>
    match p.peek 0 with
    | ((Token.Comma, sp), p) =>
      let p := p.bump
      match p.peek 0 with
      | ((Token.CloseDelim Delim.Paren, _), p) =>
        some (Except.ok [], p.add_diag ((Diag.warning "Superfluous trailing comma").span sp))
      | (_, p) => plopc_loop fuel p
    | ((Token.CloseDelim Delim.Paren, _), p) => some (Except.ok [], p)
    | ((_, sp), p) =>
      some (Except.error (),
        p.add_diag
          ((Diag.error "Expected comma or closing paren after list of port connections").span sp))

end

/-- `parse_list_of_port_connections`: empty if the closing parenthesis is next. -/
def parse_list_of_port_connections : Nat → Parser → Option (Except Unit (List Unit) × Parser)
  | 0, _ => none
  | fuel + 1, p =>
    match p.peek 0 with
    | ((Token.CloseDelim Delim.Paren, _), p) => some (Except.ok [], p)
    | (_, p) => plopc_loop fuel p

/-- `parse_parameter_assignment`: named (`.name(expr)`) or ordered (`expr`). -/
def parse_parameter_assignment : Nat → Parser → Option (Except Unit Unit × Parser)
  | 0, _ => none
  | fuel + 1, p =>
    match p.try_eat Token.Period with
    | (true, p) =>
      match p.eat_ident "parameter name" with
      | (Except.error e, p) => some (Except.error e, p)
      | (Except.ok _, p) =>
        match p.require_reported (Token.OpenDelim Delim.Paren) with
        | (Except.error e, p) => some (Except.error e, p)
        | (Except.ok _, p) =>
          match parse_expr fuel p with
          | none => none
          | some (Except.error _, p) =>
            match Parser.recover_balanced fuel p [Token.CloseDelim Delim.Paren] true with
            | none => none
            | some p => some (Except.error (), p)
          | some (Except.ok _, p) =>
            match p.require_reported (Token.CloseDelim Delim.Paren) with
            | (Except.error e, p) => some (Except.error e, p)
            | (Except.ok _, p) => some (Except.ok (), p)
    | (false, p) =>
      match parse_expr fuel p with
      | none => none
      | some (Except.error e, p) => some (Except.error e, p)
      | some (Except.ok _, p) => some (Except.ok (), p)

mutual

/-- The item loop of `parse_parameter_assignments`. -/
def ppa_loop : Nat → Parser → List Unit → Option (Except Unit (List Unit) × Parser)
  | 0, _, _ => none
  | fuel + 1, p, v =>
    match parse_parameter_assignment fuel p with
    | none => none
    | some (Except.ok x, p) => ppa_sep fuel p (v ++ [x])
    | some (Except.error _, p) =>
      match Parser.recover_balanced fuel p [Token.Comma, Token.CloseDelim Delim.Paren] false with
      | none => none
      | some p => ppa_sep fuel p v

/-- The separator check of `parse_parameter_assignments`, followed by the
closing parenthesis on exit. -/
def ppa_sep : Nat → Parser → List Unit → Option (Except Unit (List Unit) × Parser)
  | 0, _, _ => none
  | fuel + 1, p, v =>
    match p.peek 0 with
    | ((Token.Comma, sp), p) =>
      let p := p.bump
      match p.peek 0 with
      | ((Token.CloseDelim Delim.Paren, _), p) =>
        ppa_finish (p.add_diag ((Diag.warning "Superfluous trailing comma").span sp)) v
      | (_, p) => ppa_loop fuel p v
    | ((Token.CloseDelim Delim.Paren, _), p) => ppa_finish p v
    | ((_, sp), p) =>
      let p := p.add_diag
        ((Diag.error "Expected comma or closing paren after parameter assignment, found").span sp)
      match Parser.recover_balanced fuel p [Token.CloseDelim Delim.Paren] false with
      | none => none
      | some p => ppa_finish p v

/-- Closing-parenthesis consumption shared by the exits of the loop of
`parse_parameter_assignments`. -/
def ppa_finish (p : Parser) (v : List Unit) : Option (Except Unit (List Unit) × Parser) :=
  match p.require_reported (Token.CloseDelim Delim.Paren) with
  | (Except.error e, p) => some (Except.error e, p)
  | (Except.ok _, p) => some (Except.ok v, p)

end

/-- `parse_parameter_assignments` (after `#`): a parenthesized comma-separated
list of parameter assignments. -/
def parse_parameter_assignments : Nat → Parser → Option (Except Unit (List Unit) × Parser)
  | 0, _ => none
  | fuel + 1, p =>
    match p.require_reported (Token.OpenDelim Delim.Paren) with
    | (Except.error e, p) => some (Except.error e, p)
    | (Except.ok _, p) =>
      match p.try_eat (Token.CloseDelim Delim.Paren) with
      | (true, p) => some (Except.ok [], p)
      | (false, p) => ppa_loop fuel p []

/-! ### Statements and blocks -/

mutual

/-- `parse_stmt`: a null statement, an optional statement label
(`ident ':'`, detected by one token of lookahead), then the statement item. -/
def parse_stmt : Nat → Parser → Option (Except Unit Stmt × Parser)
  | 0, _ => none
  | fuel + 1, p =>
    match p.peek 0 with
    | ((_, span0), p) =>
      match p.try_eat Token.Semicolon with
      | (true, p) => some (Except.ok (Stmt.new_null span0), p)
      | (false, p) =>
        match p.peek 1 with
        | ((t1, _), p) =>
          if t1 = Token.Colon then
            match p.eat_ident "statement label" with
            | (Except.error e, p) => some (Except.error e, p)
            | (Except.ok (n, _), p) => parse_stmt_item fuel p.bump (some n) span0
          else parse_stmt_item fuel p none span0

/-- The statement-item match of `parse_stmt`: sequential blocks, parallel
blocks, everything else a "not implemented" diagnostic with recovery.  The
unreachable-terminator `panic!` of the `fork` arm is modelled as `none`. -/
def parse_stmt_item : Nat → Parser → Option Nat → Span → Option (Except Unit Stmt × Parser)
  | 0, _, _, _ => none
  | fuel + 1, p, label, span0 =>
    match p.peek 0 with
    | ((tkn, sp), p) =>
      match tkn with
      | Token.OpenDelim Delim.Bgend =>
        match parse_block fuel p.bump label [Token.CloseDelim Delim.Bgend] with
        | none => none
        | some (Except.error e, p) => some (Except.error e, p)
        | some (Except.ok (stmts, _, label2), p) =>
          some (Except.ok
            (Stmt.mk (span0.expand p.last_span) label2 (StmtData.SequentialBlock stmts)), p)
      | Token.Keyword Kw.Fork =>
        match parse_block fuel p.bump label
            [Token.Keyword Kw.Join, Token.Keyword Kw.JoinAny, Token.Keyword Kw.JoinNone] with
        | none => none
        | some (Except.error e, p) => some (Except.error e, p)
        | some (Except.ok (stmts, terminator, label2), p) =>
          match terminator with
          | Token.Keyword Kw.Join =>
            some (Except.ok (Stmt.mk (span0.expand p.last_span) label2
              (StmtData.ParallelBlock stmts JoinKind.All)), p)
          | Token.Keyword Kw.JoinAny =>
            some (Except.ok (Stmt.mk (span0.expand p.last_span) label2
              (StmtData.ParallelBlock stmts JoinKind.Any)), p)
          | Token.Keyword Kw.JoinNone =>
            some (Except.ok (Stmt.mk (span0.expand p.last_span) label2
              (StmtData.ParallelBlock stmts JoinKind.None)), p)
          | _ => none
      | _ =>
        let p := p.add_diag ((Diag.error "Expected statement, got a different token instead").span sp)
        match Parser.recover_balanced fuel p [Token.Semicolon] true with
        | none => none
        | some p => some (Except.error (), p)

/-- `parse_block`: consume the optional block-open label (checking it against
an existing statement label), run the statement loop, then the optional
block-close label check.  Returns the statements, the terminator token, and
the label as updated at block open. -/
def parse_block : Nat → Parser → Option Nat → List Token →
    Option (Except Unit (List Stmt × Token × Option Nat) × Parser)
  | 0, _, _, _ => none
  | fuel + 1, p, label, terminators =>
    match p.try_eat Token.Colon with
    | (true, p) =>
      match p.eat_ident "block label" with
      | (Except.error e, p) => some (Except.error e, p)
      | (Except.ok (name, name_span), p) =>
        match label with
        | some existing =>
          let p :=
            if name = existing then
              p.add_diag ((Diag.warning "Block labelled twice").span name_span)
            else
              p.add_diag ((Diag.error
                "Block has been given two conflicting labels").span name_span)
          parse_block_rest fuel p label terminators
        | none => parse_block_rest fuel p (some name) terminators
    | (false, p) => parse_block_rest fuel p label terminators

/-- The statement loop of `parse_block` followed by the close-label check. -/
def parse_block_rest : Nat → Parser → Option Nat → List Token →
    Option (Except Unit (List Stmt × Token × Option Nat) × Parser)
  | 0, _, _, _ => none
  | fuel + 1, p, label, terminators =>
    match block_loop fuel p terminators [] with
    | none => none
    | some ((v, terminator), p) =>
      match p.try_eat Token.Colon with
      | (false, p) => some (Except.ok (v, terminator, label), p)
      | (true, p) =>
        match p.eat_ident "block label" with
        | (Except.error e, p) => some (Except.error e, p)
        | (Except.ok (name, name_span), p) =>
          let p :=
            match label with
            | some before =>
              if before ≠ name then
                p.add_diag ((Diag.error
                  "Block label at end of block does not match label at beginning of block").span name_span)
              else p
            | none =>
              p.add_diag ((Diag.error
                "Block label provided at the end of the block, but not at the beginning").span name_span)
          some (Except.ok (v, terminator, label), p)

/-- The `'outer` statement loop of `parse_block`.  Note the asymmetry kept
from the source: when a terminator is reached the loop stops WITHOUT consuming
it, whereas the error-recovery path consumes whatever token recovery stopped
at. -/
def block_loop : Nat → Parser → List Token → List Stmt →
    Option ((List Stmt × Token) × Parser)
  | 0, _, _, _ => none
  | fuel + 1, p, terminators, v =>
    match p.peek 0 with
    | ((tkn, _), p) =>
      if tkn ∈ terminators then some ((v, tkn), p)
      else
        match parse_stmt fuel p with
        | none => none
        | some (Except.ok s, p) => block_loop fuel p terminators (v ++ [s])
        | some (Except.error _, p) =>
          match Parser.recover_balanced fuel p terminators false with
          | none => none
          | some p =>
            match p.peek 0 with
            | ((t2, _), p) => some ((v, t2), p.bump)

end

/-- `parse_procedure`: consume the introducing keyword and parse the statement. -/
def parse_procedure : Nat → Parser → ProcedureKind → Option (Except Unit Procedure × Parser)
  | 0, _, _ => none
  | fuel + 1, p, kind =>
    let p := p.bump
    let span0 := p.last_span
    match parse_stmt fuel p with
    | none => none
    | some (Except.error e, p) => some (Except.error e, p)
    | some (Except.ok stmt, p) =>
      some (Except.ok { span := span0.expand p.last_span, kind := kind, stmt := stmt }, p)

/-- `parse_func_decl`: unimplemented; diagnostic and recovery to `endfunction`. -/
def parse_func_decl : Nat → Parser → Option (Except Unit Unit × Parser)
  | 0, _ => none
  | fuel + 1, p =>
    match p.peek 0 with
    | ((_, q), p) =>
      let p := p.bump
      let p := p.add_diag ((Diag.error "Do not know how to parse function declarations").span q)
      match Parser.recover_balanced fuel p [Token.Keyword Kw.Endfunction] true with
      | none => none
      | some p => some (Except.error (), p)

/-- `parse_task_decl`: unimplemented; diagnostic and recovery to `endtask`. -/
def parse_task_decl : Nat → Parser → Option (Except Unit Unit × Parser)
  | 0, _ => none
  | fuel + 1, p =>
    match p.peek 0 with
    | ((_, q), p) =>
      let p := p.bump
      let p := p.add_diag ((Diag.error "Do not know how to parse task declarations").span q)
      match Parser.recover_balanced fuel p [Token.Keyword Kw.Endtask] true with
      | none => none
      | some p => some (Except.error (), p)

/-! ### localparam, parameter and modport declarations -/

/-- `parse_localparam_decl`: the loop over parameter assignments (the keyword
has been consumed by `hierarchy_item_wrapper`). -/
def parse_localparam_decl : Nat → Parser → Option (Except Unit Unit × Parser)
  | 0, _ => none
  | fuel + 1, p =>
    match p.eat_ident_or "parameter name" with
    | (Except.error e, p) => some (Except.error (), p.add_diag e)
    | (Except.ok _, p) =>
      let afterAssign : Option Parser :=
        match p.try_eat Token.Assign with
        | (false, p) => some p
        | (true, p) =>
          match parse_constant_expr fuel p with
          | none => none
          | some (Except.ok _, p) => some p
          | some (Except.error _, p) =>
            Parser.recover_balanced fuel p [Token.Comma, Token.CloseDelim Delim.Paren] false
      match afterAssign with
      | none => none
      | some p =>
        match p.peek 0 with
        | ((Token.Comma, sp), p) =>
          let p := p.bump
          match p.peek 0 with
          | ((Token.Semicolon, _), p) =>
            some (Except.ok (), p.add_diag ((Diag.warning "Superfluous trailing comma").span sp))
          | (_, p) => parse_localparam_decl fuel p
        | ((Token.Semicolon, _), p) => some (Except.ok (), p)
        | ((_, sp), p) =>
          some (Except.error (),
            p.add_diag ((Diag.error "Expected comma or semicolon after parameter assignment").span sp))

/-- `parse_parameter_decl`: unimplemented. -/
def parse_parameter_decl : Nat → Parser → Option (Except Unit Unit × Parser)
  | 0, _ => none
  | _ + 1, p =>
    match p.peek 0 with
    | ((_, q), p) =>
      some (Except.error (),
        p.add_diag ((Diag.error "Parameter declarations not implemented").span q))

mutual

/-- The simple-port loop of `parse_modport_port_decl` (after the direction
keyword). -/
def mpd_simple_loop : Nat → Parser → Option (Except Unit Unit × Parser)
  | 0, _ => none
  | fuel + 1, p =>
    match p.try_eat Token.Period with
    | (true, p) =>
      match p.eat_ident "port name" with
      | (Except.error e, p) => some (Except.error e, p)
      | (Except.ok _, p) =>
        match p.require_reported (Token.OpenDelim Delim.Paren) with
        | (Except.error e, p) => some (Except.error e, p)
        | (Except.ok _, p) =>
          match p.require_reported (Token.CloseDelim Delim.Paren) with
          | (Except.error e, p) => some (Except.error e, p)
          | (Except.ok _, p) => mpd_sep fuel p
    | (false, p) =>
      match p.eat_ident "port_name" with
      | (Except.error e, p) => some (Except.error e, p)
      | (Except.ok _, p) => mpd_sep fuel p

/-- The continuation decision of `parse_modport_port_decl`: a comma followed by
a keyword ends this declaration; a comma otherwise continues; anything else
ends. -/
def mpd_sep : Nat → Parser → Option (Except Unit Unit × Parser)
  | 0, _ => none
  | fuel + 1, p =>
    match p.peek 0 with
    | ((t0, _), p) =>
      match p.peek 1 with
      | ((t1, _), p) =>
        match t0, t1 with
        | Token.Comma, Token.Keyword _ => some (Except.ok (), p)
        | Token.Comma, _ => mpd_simple_loop fuel p.bump
        | _, _ => some (Except.ok (), p)

end

/-- `parse_modport_port_decl`: a direction-introduced simple-port group, or
`clocking` (unimplemented), otherwise an error. -/
def parse_modport_port_decl : Nat → Parser → Option (Except Unit Unit × Parser)
  | 0, _ => none
  | fuel + 1, p =>
    match p.peek 0 with
    | ((tkn, span), p) =>
      match as_port_direction tkn with
      | some _ => mpd_simple_loop fuel p.bump
      | none =>
        match p.try_eat (Token.Keyword Kw.Clocking) with
        | (true, p) =>
          some (Except.error (),
            p.add_diag ((Diag.error "modport clocking declaration not implemented").span span))
        | (false, p) =>
          some (Except.error (), p.add_diag ((Diag.error "Expected port declaration").span span))

/-- The port-declaration loop of `parse_modport_item`. -/
def mpi_loop : Nat → Parser → Option (Except Unit Unit × Parser)
  | 0, _ => none
  | fuel + 1, p =>
    match parse_modport_port_decl fuel p with
    | none => none
    | some (Except.error _, p) =>
      match Parser.recover fuel p [Token.CloseDelim Delim.Paren] true with
      | none => none
      | some p => some (Except.error (), p)
    | some (Except.ok _, p) =>
      match p.peek 0 with
      | ((Token.Comma, sp), p) =>
        let p := p.bump
        match p.peek 0 with
        | ((Token.CloseDelim Delim.Paren, _), p) =>
          some (Except.ok (), p.add_diag ((Diag.warning "Superfluous trailing comma").span sp))
        | (_, p) => mpi_loop fuel p
      | ((Token.CloseDelim Delim.Paren, _), p) => some (Except.ok (), p)
      | ((_, sp), p) =>
        some (Except.error (),
          p.add_diag ((Diag.error "Expected comma or closing paren after port declaration").span sp))

/-- `parse_modport_item`: a named item with a parenthesized list of port
declarations. -/
def parse_modport_item : Nat → Parser → Option (Except Unit Unit × Parser)
  | 0, _ => none
  | fuel + 1, p =>
    match p.eat_ident_or "modport name" with
    | (Except.error e, p) => some (Except.error (), p.add_diag e)
    | (Except.ok _, p) =>
      match p.try_eat (Token.OpenDelim Delim.Paren) with
      | (false, p) =>
        match p.peek 0 with
        | ((_, q), p) =>
          some (Except.error (),
            p.add_diag ((Diag.error "Expected opening paren after modport name").span q))
      | (true, p) =>
        match mpi_loop fuel p with
        | none => none
        | some (Except.error e, p) => some (Except.error e, p)
        | some (Except.ok _, p) =>
          match p.try_eat (Token.CloseDelim Delim.Paren) with
          | (true, p) => some (Except.ok (), p)
          | (false, p) =>
            match p.peek 0 with
            | ((_, q), p) =>
              some (Except.error (),
                p.add_diag
                  ((Diag.error "Expected closing paren after port list of modport").span q))

/-- `parse_modport_decl`: one or more modport items separated by commas,
terminated by a semicolon (left for the caller to consume). -/
def parse_modport_decl : Nat → Parser → Option (Except Unit Unit × Parser)
  | 0, _ => none
  | fuel + 1, p =>
    match parse_modport_item fuel p with
    | none => none
    | some (Except.error e, p) => some (Except.error e, p)
    | some (Except.ok _, p) =>
      match p.peek 0 with
      | ((Token.Comma, sp), p) =>
        let p := p.bump
        match p.peek 0 with
        | ((Token.Semicolon, _), p) =>
          some (Except.ok (), p.add_diag ((Diag.warning "Superfluous trailing comma").span sp))
        | (_, p) => parse_modport_decl fuel p
      | ((Token.Semicolon, _), p) => some (Except.ok (), p)
      | ((_, sp), p) =>
        some (Except.error (),
          p.add_diag ((Diag.error "Expected comma or semicolon after modport declaration").span sp))

/-! ### Hierarchy items (data/instance declarations and friends) -/

/-- `hierarchy_item_wrapper`: consume the introducing keyword, call the item
parser, require the trailing semicolon on success, recover to `term` on
failure. -/
def hierarchy_item_wrapper (fuel : Nat) (p : Parser)
    (func : Nat → Parser → Option (Except Unit Unit × Parser)) (term : Token) :
    Option (Except Unit Unit × Parser) :=
  match fuel with
  | 0 => none
  | fuel + 1 =>
    let p := p.bump
    match func fuel p with
    | none => none
    | some (Except.ok x, p) =>
      match p.require Token.Semicolon with
      | (Except.error d, p) => some (Except.ok x, p.add_diag d)
      | (Except.ok _, p) => some (Except.ok x, p)
    | some (Except.error e, p) =>
      match Parser.recover fuel p [term] true with
      | none => none
      | some p => some (Except.error e, p)

mutual

/-- The variable-declaration-assignment loop of `try_hierarchy_item`
(lines 643-700 of the source).  Note: when the expected identifier is
missing, the offending token is consumed (`p.bump()`) before the diagnostic
is emitted and the item fails. -/
def thi_var_loop : Nat → Parser → Option (Option (Except Unit Unit) × Parser)
  | 0, _ => none
  | fuel + 1, p =>
    match p.eat_ident_or "variable or instance name" with
    | (Except.error e, p) => some (some (Except.error ()), p.bump.add_diag e)
    | (Except.ok _, p) =>
      match parse_optional_dimensions fuel p with
      | none => none
      | some (Except.error _, p) => some (some (Except.error ()), p)
      | some (Except.ok _, p) =>
        match p.peek 0 with
        | ((Token.Assign, sp), p) =>
          let p := p.add_diag
            ((Diag.error "Default variable assignments not implemented").span sp)
          match Parser.recover_balanced fuel p [Token.Comma, Token.Semicolon] false with
          | none => none
          | some p => thi_var_sep fuel p
        | ((Token.OpenDelim Delim.Paren, _), p) =>
          match parse_list_of_port_connections fuel p.bump with
          | none => none
          | some (Except.error _, p) => some (some (Except.error ()), p)
          | some (Except.ok _, p) =>
            match p.require_reported (Token.CloseDelim Delim.Paren) with
            | (Except.error e, p) => some (some (Except.error e), p)
            | (Except.ok _, p) => thi_var_sep fuel p
        | (_, p) => thi_var_sep fuel p

/-- The continue-or-terminate decision of the loop of `try_hierarchy_item`. -/
def thi_var_sep : Nat → Parser → Option (Option (Except Unit Unit) × Parser)
  | 0, _ => none
  | fuel + 1, p =>
    match p.peek 0 with
    | ((Token.Semicolon, _), p) => some (some (Except.ok ()), p.bump)
    | ((Token.Comma, sp), p) =>
      let p := p.bump
      match p.peek 0 with
      | ((Token.Semicolon, _), p) =>
        let p := p.add_diag ((Diag.warning "Superfluous trailing comma").span sp)
        some (some (Except.ok ()), p.bump)
      | (_, p) => thi_var_loop fuel p
    | ((_, sp), p) =>
      let p := p.add_diag ((Diag.error "Expected comma or semicolon after variable declaration").span sp)
      match Parser.recover fuel p [Token.Semicolon] true with
      | none => none
      | some p => some (some (Except.error ()), p)

end

/-- `try_hierarchy_item`: keyword-dispatched items first, otherwise a data
type (possibly implicit) followed by a list of variable
declarations/instantiations.  The Rust return type `Option<ReportedResult>`
is mirrored as the inner `Option (Except Unit Unit)` (the source never
actually returns the inner `None`). -/
def try_hierarchy_item : Nat → Parser → Option (Option (Except Unit Unit) × Parser)
  | 0, _ => none
  | fuel + 1, p =>
    match p.peek 0 with
    | ((tkn, _), p) =>
      match tkn with
      | Token.Keyword Kw.Localparam =>
        (hierarchy_item_wrapper fuel p parse_localparam_decl Token.Semicolon).map
          (fun rp => (some rp.1, rp.2))
      | Token.Keyword Kw.Parameter =>
        (hierarchy_item_wrapper fuel p parse_parameter_decl Token.Semicolon).map
          (fun rp => (some rp.1, rp.2))
      | Token.Keyword Kw.Modport =>
        (hierarchy_item_wrapper fuel p parse_modport_decl Token.Semicolon).map
          (fun rp => (some rp.1, rp.2))
      | Token.Keyword Kw.Initial =>
        (parse_procedure fuel p ProcedureKind.Initial).map
          (fun rp => (some (rp.1.map (fun _ => ())), rp.2))
      | Token.Keyword Kw.Always =>
        (parse_procedure fuel p ProcedureKind.Always).map
          (fun rp => (some (rp.1.map (fun _ => ())), rp.2))
      | Token.Keyword Kw.AlwaysComb =>
        (parse_procedure fuel p ProcedureKind.AlwaysComb).map
          (fun rp => (some (rp.1.map (fun _ => ())), rp.2))
      | Token.Keyword Kw.AlwaysLatch =>
        (parse_procedure fuel p ProcedureKind.AlwaysLatch).map
          (fun rp => (some (rp.1.map (fun _ => ())), rp.2))
      | Token.Keyword Kw.AlwaysFf =>
        (parse_procedure fuel p ProcedureKind.AlwaysFf).map
          (fun rp => (some (rp.1.map (fun _ => ())), rp.2))
      | Token.Keyword Kw.Final =>
        (parse_procedure fuel p ProcedureKind.Final).map
          (fun rp => (some (rp.1.map (fun _ => ())), rp.2))
      | Token.Keyword Kw.Function =>
        (parse_func_decl fuel p).map (fun rp => (some rp.1, rp.2))
      | Token.Keyword Kw.Task =>
        (parse_task_decl fuel p).map (fun rp => (some rp.1, rp.2))
      | _ =>
        match parse_data_type fuel p with
        | none => none
        | some (Except.error _, p) =>
          match Parser.recover_balanced fuel p [Token.Semicolon] true with
          | none => none
          | some p => some (some (Except.error ()), p)
        | some (Except.ok _, p) =>
          match p.try_eat Token.Hashtag with
          | (true, p) =>
            match parse_parameter_assignments fuel p with
            | none => none
            | some (Except.error _, p) => some (some (Except.error ()), p)
            | some (Except.ok _, p) => thi_var_loop fuel p
          | (false, p) => thi_var_loop fuel p

/-! ### Ports -/

/-- `parse_port`: optional direction, optional net-type/`var` keyword, then
the port data type, the port name and its dimensions.  If direction, kind and
type are ALL absent, all three should be inherited from the previous port;
since `parse_data_type` always yields a type (`ty` is always `Some`), that
branch mirrors the dead code of the source. -/
def parse_port : Nat → Parser → Option Port → Option (Except Unit Port × Parser)
  | 0, _, _ => none
  | fuel + 1, p, prev =>
    match p.peek 0 with
    | ((t0, span0), p) =>
      let dir0 : Option PortDir := as_port_direction t0
      let p := if dir0.isSome then p.bump else p
      match p.peek 0 with
      | ((t1, _), p) =>
        let kind0 : Option PortKind :=
          match t1 with
          | Token.Keyword Kw.Supply0 => some PortKind.NetPort
          | Token.Keyword Kw.Supply1 => some PortKind.NetPort
          | Token.Keyword Kw.Tri => some PortKind.NetPort
          | Token.Keyword Kw.Triand => some PortKind.NetPort
          | Token.Keyword Kw.Trior => some PortKind.NetPort
          | Token.Keyword Kw.Trireg => some PortKind.NetPort
          | Token.Keyword Kw.Tri0 => some PortKind.NetPort
          | Token.Keyword Kw.Tri1 => some PortKind.NetPort
          | Token.Keyword Kw.Uwire => some PortKind.NetPort
          | Token.Keyword Kw.Wire => some PortKind.NetPort
          | Token.Keyword Kw.Wand => some PortKind.NetPort
          | Token.Keyword Kw.Wor => some PortKind.NetPort
          | Token.Keyword Kw.Var => some PortKind.VarPort
          | _ => none
        let p := if kind0.isSome then p.bump else p
        match p.try_eat Token.Period with
        | (true, p) =>
          match p.peek 0 with
          | ((_, q), p) =>
            some (Except.error (),
              p.add_diag ((Diag.error "Ports starting with a period not yet supported").span q))
        | (false, p) =>
          match parse_data_type fuel p with
          | none => none
          | some (Except.error e, p) => some (Except.error e, p)
          | some (Except.ok t, p) =>
            let ty0 : Option AstType := some t
            match p.try_eat_ident with
            | (none, p) =>
              match p.peek 0 with
              | ((_, q), p) =>
                some (Except.error (),
                  p.add_diag
                    ((Diag.error "Ports with implicit data types not yet supported").span q))
            | (some (name, name_span), p) =>
              match parse_optional_dimensions fuel p with
              | none => none
              | some (Except.error e, p) => some (Except.error e, p)
              | some (Except.ok (dims, _), p) =>
                let fields : PortDir × PortKind × AstType :=
                  match dir0, kind0, ty0, prev with
                  | none, none, none, some pr => (pr.dir, pr.kind, pr.ty)
                  | dir0, kind0, ty0, _ =>
                    let dir1 := dir0.getD PortDir.Inout
                    let ty1 := ty0.getD
                      { span := INVALID_SPAN, data := TypeData.LogicType,
                        sign := TypeSign.None, dims := [] }
                    let kind1 := kind0.getD
                      (match dir1 with
                       | PortDir.Input => PortKind.NetPort
                       | PortDir.Inout => PortKind.NetPort
                       | PortDir.Ref => PortKind.VarPort
                       | PortDir.Output =>
                         if ty1.data = TypeData.ImplicitType then PortKind.NetPort
                         else PortKind.VarPort)
                    (dir1, kind1, ty1)
                match fields with
                | (dir1, kind1, ty1) =>
                  let p :=
                    match p.try_eat Token.Equal with
                    | (false, p) => p
                    | (true, p) =>
                      match p.peek 0 with
                      | ((_, q), p) =>
                        p.add_diag
                          ((Diag.error "Ports with initial assignment not yet supported").span q)
                  some (Except.ok
                    { span := span0.expand p.last_span, name := name, name_span := name_span,
                      kind := kind1, ty := ty1, dir := dir1, dims := dims }, p)

/-- Closing-parenthesis consumption shared by the loop exits of
`parse_port_list`. -/
def pl_finish (p : Parser) (v : List Port) : Option (Except Unit (List Port) × Parser) :=
  match p.require_reported (Token.CloseDelim Delim.Paren) with
  | (Except.error e, p) => some (Except.error e, p)
  | (Except.ok _, p) => some (Except.ok v, p)

mutual

/-- The port loop of `parse_port_list`; the previous port (`v.last()`) is
passed down for the inheritance rule. -/
def pl_loop : Nat → Parser → List Port → Option (Except Unit (List Port) × Parser)
  | 0, _, _ => none
  | fuel + 1, p, v =>
    match parse_port fuel p v.getLast? with
    | none => none
    | some (Except.ok x, p) => pl_sep fuel p (v ++ [x])
    | some (Except.error _, p) =>
      match Parser.recover_balanced fuel p [Token.Comma, Token.CloseDelim Delim.Paren] false with
      | none => none
      | some p => pl_sep fuel p v

/-- The separator check of `parse_port_list` (a trailing comma right before
the closing parenthesis is a warning). -/
def pl_sep : Nat → Parser → List Port → Option (Except Unit (List Port) × Parser)
  | 0, _, _ => none
  | fuel + 1, p, v =>
    match p.peek 0 with
    | ((Token.Comma, sp), p) =>
      let p := p.bump
      match p.peek 0 with
      | ((Token.CloseDelim Delim.Paren, _), p) =>
        pl_finish (p.add_diag ((Diag.warning "Superfluous trailing comma").span sp)) v
      | (_, p) => pl_loop fuel p v
    | ((Token.CloseDelim Delim.Paren, _), p) => pl_finish p v
    | ((_, sp), p) =>
      let p := p.add_diag ((Diag.error "Expected comma or closing paren after port").span sp)
      match Parser.recover_balanced fuel p [Token.CloseDelim Delim.Paren] false with
      | none => none
      | some p => pl_finish p v

end

/-- `parse_port_list` (after the opening parenthesis has been consumed). -/
def parse_port_list : Nat → Parser → Option (Except Unit (List Port) × Parser)
  | 0, _ => none
  | fuel + 1, p =>
    match p.try_eat (Token.CloseDelim Delim.Paren) with
    | (true, p) => some (Except.ok [], p)
    | (false, p) => pl_loop fuel p []

/-! ### Parameter port lists -/

/-- Loop-control outcome of a separator check. -/
inductive SepAct where
  | more
  | stop
deriving Repr, DecidableEq

/-- The separator check of the assignment loop in `parse_parameter_port_list`:
a comma followed by `parameter` or by the closing parenthesis (warning) stops
the current assignment list; a comma otherwise continues; a closing
parenthesis stops; anything else is an error with balanced recovery. -/
def ppl_sep : Nat → Parser → Option (SepAct × Parser)
  | 0, _ => none
  | fuel + 1, p =>
    match p.peek 0 with
    | ((Token.Comma, sp), p) =>
      let p := p.bump
      match p.peek 0 with
      | ((Token.Keyword Kw.Parameter, _), p) => some (SepAct.stop, p)
      | ((Token.CloseDelim Delim.Paren, _), p) =>
        some (SepAct.stop, p.add_diag ((Diag.warning "Superfluous trailing comma").span sp))
      | (_, p) => some (SepAct.more, p)
    | ((Token.CloseDelim Delim.Paren, _), p) => some (SepAct.stop, p)
    | ((_, sp), p) =>
      let p := p.add_diag
        ((Diag.error "Expected comma or closing paren after parameter assignment").span sp)
      match Parser.recover_balanced fuel p [Token.CloseDelim Delim.Paren] false with
      | none => none
      | some p => some (SepAct.stop, p)

/-- The assignment loop of `parse_parameter_port_list` (inside one
`parameter` keyword). -/
def ppl_assign_loop : Nat → Parser → List Unit → Option (List Unit × Parser)
  | 0, _, _ => none
  | fuel + 1, p, v =>
    match p.eat_ident "parameter name" with
    | (Except.error _, p) =>
      match Parser.recover_balanced fuel p [Token.Comma, Token.CloseDelim Delim.Paren] false with
      | none => none
      | some p => some (v, p)
    | (Except.ok _, p) =>
      let afterAssign : Option Parser :=
        match p.try_eat Token.Assign with
        | (false, p) => some p
        | (true, p) =>
          match parse_constant_expr fuel p with
          | none => none
          | some (Except.ok _, p) => some p
          | some (Except.error _, p) =>
            Parser.recover_balanced fuel p [Token.Comma, Token.CloseDelim Delim.Paren] false
      match afterAssign with
      | none => none
      | some p =>
        let v := v ++ [()]
        match ppl_sep fuel p with
        | none => none
        | some (SepAct.more, p) => ppl_assign_loop fuel p v
        | some (SepAct.stop, p) => some (v, p)

/-- The `while p.try_eat(parameter)` outer loop of
`parse_parameter_port_list`, ending with the required closing parenthesis. -/
def ppl_outer : Nat → Parser → List Unit → Option (Except Unit (List Unit) × Parser)
  | 0, _, _ => none
  | fuel + 1, p, v =>
    match p.try_eat (Token.Keyword Kw.Parameter) with
    | (false, p) =>
      match p.require_reported (Token.CloseDelim Delim.Paren) with
      | (Except.error e, p) => some (Except.error e, p)
      | (Except.ok _, p) => some (Except.ok v, p)
    | (true, p) =>
      match ppl_assign_loop fuel p v with
      | none => none
      | some (v, p) => ppl_outer fuel p v

/-- `parse_parameter_port_list` (after `#`): `( parameter ... )`. -/
def parse_parameter_port_list : Nat → Parser → Option (Except Unit (List Unit) × Parser)
  | 0, _ => none
  | fuel + 1, p =>
    match p.require_reported (Token.OpenDelim Delim.Paren) with
    | (Except.error e, p) => some (Except.error e, p)
    | (Except.ok _, p) => ppl_outer fuel p []

/-! ### Module and interface declarations -/

/-- The body loop of `parse_interface_decl`
(`while p.peek(0).0 != Keyword(Endinterface)`).  Note that, unlike the module
body loop, it does NOT stop at `Eof`. -/
def intf_body_loop : Nat → Parser → Option Parser
  | 0, _ => none
  | fuel + 1, p =>
    match p.peek 0 with
    | ((tkn, _), p) =>
      if tkn = Token.Keyword Kw.Endinterface then some p
      else
        match try_hierarchy_item fuel p with
        | none => none
        | some (some (Except.ok _), p) => intf_body_loop fuel p
        | some (some (Except.error _), p) =>
          match Parser.recover fuel p [Token.Keyword Kw.Endinterface] false with
          | none => none
          | some p => intf_body_loop fuel p
        | some (none, p) =>
          match p.peek 0 with
          | ((_, q), p) =>
            let p := p.add_diag ((Diag.error "Expected hierarchy item").span q)
            match Parser.recover fuel p [Token.Keyword Kw.Endinterface] false with
            | none => none
            | some p => intf_body_loop fuel p

/-- `parse_interface_decl` (after the `interface` keyword): optional lifetime,
name, optional parameter ports, optional ports, header semicolon (missing one
is a recoverable diagnostic), body, and the `endinterface` keyword (a missing
one is reported). -/
def parse_interface_decl : Nat → Parser → Option (Except Unit IntfDecl × Parser)
  | 0, _ => none
  | fuel + 1, p =>
    let span0 := p.last_span
    match p.peek 0 with
    | ((t0, _), p) =>
      let lifetimeRes : Lifetime × Parser :=
        match as_lifetime t0 with
        | some l => (l, p.bump)
        | none => (Lifetime.Static, p)
      match lifetimeRes with
      | (lifetime, p) =>
        match p.eat_ident "interface name" with
        | (Except.error e, p) => some (Except.error e, p)
        | (Except.ok (name, name_sp), p) =>
          let paramStep : Option (Except Unit (List Unit) × Parser) :=
            match p.try_eat Token.Hashtag with
            | (true, p) => parse_parameter_port_list fuel p
            | (false, p) => some (Except.ok [], p)
          match paramStep with
          | none => none
          | some (Except.error e, p) => some (Except.error e, p)
          | some (Except.ok _, p) =>
            let portStep : Option (Except Unit (List Port) × Parser) :=
              match p.try_eat (Token.OpenDelim Delim.Paren) with
              | (true, p) => parse_port_list fuel p
              | (false, p) => some (Except.ok [], p)
            match portStep with
            | none => none
            | some (Except.error e, p) => some (Except.error e, p)
            | some (Except.ok ports, p) =>
              let p :=
                match p.try_eat Token.Semicolon with
                | (true, p) => p
                | (false, p) =>
                  match p.peek 0 with
                  | ((_, q), p) =>
                    p.add_diag
                      ((Diag.error "Missing semicolon after header of interface").span q.endPoint)
              match intf_body_loop fuel p with
              | none => none
              | some p =>
                let p :=
                  match p.try_eat (Token.Keyword Kw.Endinterface) with
                  | (true, p) => p
                  | (false, p) =>
                    match p.peek 0 with
                    | ((_, q), p) =>
                      p.add_diag
                        ((Diag.error "Missing endinterface keyword at the end").span q.endPoint)
                some (Except.ok
                  { span := span0.expand p.last_span, lifetime := lifetime, name := name,
                    name_span := name_sp, ports := ports }, p)

/-- The body loop of `parse_module_decl`
(`while p.peek(0).0 != Keyword(Endmodule) && p.peek(0).0 != Eof`). -/
def mod_body_loop : Nat → Parser → Option Parser
  | 0, _ => none
  | fuel + 1, p =>
    match p.peek 0 with
    | ((tkn0, _), p) =>
      if tkn0 = Token.Keyword Kw.Endmodule then some p
      else
        match p.peek 0 with
        | ((tkn1, _), p) =>
          if tkn1 = Token.Eof then some p
          else
            match try_hierarchy_item fuel p with
            | none => none
            | some (some (Except.ok _), p) => mod_body_loop fuel p
            | some (some (Except.error _), p) =>
              match Parser.recover fuel p [Token.Keyword Kw.Endmodule] false with
              | none => none
              | some p => mod_body_loop fuel p
            | some (none, p) =>
              match p.peek 0 with
              | ((_, q), p) =>
                let p := p.add_diag ((Diag.error "Expected hierarchy item").span q)
                match Parser.recover fuel p [Token.Keyword Kw.Endmodule] false with
                | none => none
                | some p => mod_body_loop fuel p

/-- `parse_module_decl` (after the `module` keyword). -/
def parse_module_decl : Nat → Parser → Option (Except Unit ModDecl × Parser)
  | 0, _ => none
  | fuel + 1, p =>
    let span0 := p.last_span
    match p.peek 0 with
    | ((t0, _), p) =>
      let lifetimeRes : Lifetime × Parser :=
        match as_lifetime t0 with
        | some l => (l, p.bump)
        | none => (Lifetime.Static, p)
      match lifetimeRes with
      | (lifetime, p) =>
        match p.eat_ident "module name" with
        | (Except.error e, p) => some (Except.error e, p)
        | (Except.ok (name, name_sp), p) =>
          let paramStep : Option (Except Unit (List Unit) × Parser) :=
            match p.try_eat Token.Hashtag with
            | (true, p) => parse_parameter_port_list fuel p
            | (false, p) => some (Except.ok [], p)
          match paramStep with
          | none => none
          | some (Except.error e, p) => some (Except.error e, p)
          | some (Except.ok _, p) =>
            let portStep : Option (Except Unit (List Port) × Parser) :=
              match p.try_eat (Token.OpenDelim Delim.Paren) with
              | (true, p) => parse_port_list fuel p
              | (false, p) => some (Except.ok [], p)
            match portStep with
            | none => none
            | some (Except.error e, p) => some (Except.error e, p)
            | some (Except.ok ports, p) =>
              let p :=
                match p.try_eat Token.Semicolon with
                | (true, p) => p
                | (false, p) =>
                  match p.peek 0 with
                  | ((_, q), p) =>
                    p.add_diag
                      ((Diag.error "Missing semicolon after header of module").span q.endPoint)
              match mod_body_loop fuel p with
              | none => none
              | some p =>
                let p :=
                  match p.try_eat (Token.Keyword Kw.Endmodule) with
                  | (true, p) => p
                  | (false, p) =>
                    match p.peek 0 with
                    | ((_, q), p) =>
                      p.add_diag
                        ((Diag.error "Missing endmodule keyword at the end").span q.endPoint)
                some (Except.ok
                  { span := span0.expand p.last_span, lifetime := lifetime, name := name,
                    name_span := name_sp, ports := ports }, p)

/-! ### Top-level driver -/

/-- The recovery loop of `parse_source_text`: scan forward to the next
`endmodule` or `endinterface` (consumed) or `Eof`. -/
def st_recover : Nat → Parser → Option Parser
  | 0, _ => none
  | fuel + 1, p =>
    match p.peek 0 with
    | ((Token.Keyword Kw.Endmodule, _), p) => some p.bump
    | ((Token.Keyword Kw.Endinterface, _), p) => some p.bump
    | ((Token.Eof, _), p) => some p
    | (_, p) => st_recover fuel p.bump

/-- The description loop of `parse_source_text`. -/
def source_text_loop : Nat → Parser → Option Parser
  | 0, _ => none
  | fuel + 1, p =>
    match p.peek 0 with
    | ((Token.Keyword Kw.Module, _), p) =>
      match parse_module_decl fuel p.bump with
      | none => none
      | some (Except.ok _, p) => source_text_loop fuel p
      | some (Except.error _, p) =>
        match st_recover fuel p with
        | none => none
        | some p => source_text_loop fuel p
    | ((Token.Keyword Kw.Interface, _), p) =>
      match parse_interface_decl fuel p.bump with
      | none => none
      | some (Except.ok _, p) => source_text_loop fuel p
      | some (Except.error _, p) =>
        match st_recover fuel p with
        | none => none
        | some p => source_text_loop fuel p
    | ((Token.Eof, _), p) => some p
    | ((_, sp), p) =>
      let p := p.add_diag ((Diag.fatal "Expected top-level description").span sp)
      match st_recover fuel p with
      | none => none
      | some p => source_text_loop fuel p

/-- `parse_source_text`. -/
def parse_source_text (fuel : Nat) (p : Parser) : Option Parser :=
  source_text_loop fuel p

/-- The top-level `parse` entry point: run `parse_source_text` and then
execute `assert!(p.get_diagnostics().is_empty())`.  The assertion failure
(a Rust panic) is modelled as `Except.error` with the panic message; a normal
return is `Except.ok ()` (the Rust function returns unit and drops both the
AST and the diagnostics). -/
def parse (fuel : Nat) (tokens : List TokenAndSpan) (eofSpan : Span) :
    Option (Except String Unit) :=
  match parse_source_text fuel (Parser.new tokens eofSpan) with
  | none => none
  | some p =>
    some (if p.diagnostics.isEmpty then Except.ok ()
          else Except.error "assertion failed: p.get_diagnostics().is_empty()")

/-! ### Generic lemmas about the token cursor -/

/-- A parser over the given token stream, spans enumerating positions. -/
def mkParser (ts : List Token) : Parser :=
  Parser.new (ts.enum.map (fun ti => (ti.2, ⟨ti.1, ti.1 + 1⟩))) ⟨100, 100⟩

/-- Number of warning diagnostics. -/
def warnCount (ds : List Diag) : Nat :=
  (ds.filter (fun d => d.severity = Severity.Warning)).length

/-- Number of error or fatal diagnostics. -/
def errCount (ds : List Diag) : Nat :=
  (ds.filter (fun d => d.severity = Severity.Error ∨ d.severity = Severity.Fatal)).length

/-- A parser state whose lexer is exhausted: any further refill yields only
the end-of-input token with span `es`. -/
def stuckP (es ls : Span) (ds : List Diag) (c : Nat) (q : List TokenAndSpan) : Parser :=
  { input := ⟨[], es⟩, queue := q, diagnostics := ds, last_span := ls, calls := c }

/-- A parser state with a preloaded queue and an exhausted lexer. -/
def qParser (q : List TokenAndSpan) : Parser :=
  { input := ⟨[], ⟨9, 9⟩⟩, queue := q, diagnostics := [], last_span := INVALID_SPAN, calls := 0 }

/-- Whether an `Except` result is a success. -/
def resultOk {ε α : Type} (r : Except ε α) : Bool :=
  match r with
  | Except.ok _ => true
  | Except.error _ => false

/-- The port names of a successful port-list result. -/
def portListNames (r : Except Unit (List Port)) : Option (List Nat) :=
  match r with
  | Except.ok ps => some (ps.map Port.name)
  | Except.error _ => none

/-- The core data of a successful data-type result. -/
def typeDataOf (r : Except Unit AstType) : Option TypeData :=
  match r with
  | Except.ok t => some t.data
  | Except.error _ => none

/-- The label of a successfully parsed statement. -/
def stmtLabelOf (r : Except Unit Stmt) : Option (Option Nat) :=
  match r with
  | Except.ok s => some s.label
  | Except.error _ => none

/-- The name of a successfully parsed module declaration. -/
def modDeclNameOf (r : Except Unit ModDecl) : Option Nat :=
  match r with
  | Except.ok m => some m.name
  | Except.error _ => none

/-- Port list tail of `(input bit a, b)` — names `a`,`b` interned as 1, 2 —
with the opening parenthesis already consumed by the header parser. -/
def c1Start : Parser :=
  mkParser [Token.Keyword Kw.Input, Token.Keyword Kw.Bit, Token.Ident 1, Token.Comma,
    Token.Ident 2, Token.CloseDelim Delim.Paren]

/-- A malformed top-level token stream: a lone `endmodule`. -/
def c2Tokens : List TokenAndSpan := [(Token.Keyword Kw.Endmodule, ⟨0, 1⟩)]

/-- An exhausted-lexer state whose queue tail is the end-of-input token. -/
def c3cexStart : Parser := qParser [(Token.Eof, ⟨9, 9⟩)]

/-- A state with a real token buffered ahead of the end-of-input tail. -/
def c3wP : Parser := qParser [(Token.Ident 1, ⟨0, 1⟩), (Token.Eof, ⟨9, 9⟩)]

/-- The token stream of `( 1 + , parameter ok = 2 )` as seen at the start of
balanced recovery inside `#( parameter bad = (1+ , parameter ok = 2 )`: the
constant-expression parser fails AT the inner opening parenthesis without
consuming it, so recovery starts there (`ok` interned as 12). -/
def c4Start : Parser :=
  mkParser [Token.OpenDelim Delim.Paren, Token.UnsignedNumber 1, Token.Add, Token.Comma,
    Token.Keyword Kw.Parameter, Token.Ident 12, Token.Assign, Token.UnsignedNumber 2,
    Token.CloseDelim Delim.Paren]

/-- Single-token states for the witness of the balanced-recovery claim. -/
def c4wA : Parser := qParser [(Token.Comma, ⟨0, 1⟩)]

def c4wC : Parser := qParser [(Token.CloseDelim Delim.Brack, ⟨0, 1⟩)]

def c4wD : Parser := qParser [(Token.CloseDelim Delim.Paren, ⟨0, 1⟩)]

/-- Body of `module Foo; undefined_construct endmodule` with the `module`
keyword consumed (`Foo` interned as 10, `undefined_construct` as 20). -/
def c5ModStart : Parser :=
  mkParser [Token.Ident 10, Token.Semicolon, Token.Ident 20, Token.Keyword Kw.Endmodule]

/-- `( parameter bar = 32 , )` with `#` consumed (`bar` interned as 11). -/
def c6PplStart : Parser :=
  mkParser [Token.OpenDelim Delim.Paren, Token.Keyword Kw.Parameter, Token.Ident 11,
    Token.Assign, Token.UnsignedNumber 32, Token.Comma, Token.CloseDelim Delim.Paren]

/-- Port-list tail `input bit a , )` with the opening parenthesis consumed. -/
def c6PlStart : Parser :=
  mkParser [Token.Keyword Kw.Input, Token.Keyword Kw.Bit, Token.Ident 1, Token.Comma,
    Token.CloseDelim Delim.Paren]

/-- Parameter-assignment list `( 1 , )` after `#`. -/
def c6PpaStart : Parser :=
  mkParser [Token.OpenDelim Delim.Paren, Token.UnsignedNumber 1, Token.Comma,
    Token.CloseDelim Delim.Paren]

/-- Modport items `foo ( input a ) , ;` with the `modport` keyword consumed. -/
def c6ModportStart : Parser :=
  mkParser [Token.Ident 10, Token.OpenDelim Delim.Paren, Token.Keyword Kw.Input,
    Token.Ident 1, Token.CloseDelim Delim.Paren, Token.Comma, Token.Semicolon]

/-- Port connections `x , )` with the opening parenthesis consumed. -/
def c6ConnStart : Parser :=
  mkParser [Token.Ident 1, Token.Comma, Token.CloseDelim Delim.Paren]

/-- Concatenation tail `1 , }` with the opening brace consumed. -/
def c6ConcatStart : Parser :=
  mkParser [Token.UnsignedNumber 1, Token.Comma, Token.CloseDelim Delim.Brace]

/-- Statement `foo : begin end bar` (`foo` interned as 10, `bar` as 11);
`begin`/`end` lex as the `Bgend` delimiter pair. -/
def c7StartMismatch : Parser :=
  mkParser [Token.Ident 10, Token.Colon, Token.OpenDelim Delim.Bgend,
    Token.CloseDelim Delim.Bgend, Token.Ident 11]

/-- Statement `foo : begin end foo`. -/
def c7StartMatch : Parser :=
  mkParser [Token.Ident 10, Token.Colon, Token.OpenDelim Delim.Bgend,
    Token.CloseDelim Delim.Bgend, Token.Ident 10]

/-- Statement `begin end bar`. -/
def c7StartNoOpen : Parser :=
  mkParser [Token.OpenDelim Delim.Bgend, Token.CloseDelim Delim.Bgend, Token.Ident 11]

/-- Hierarchy item `foo ;` (`foo` interned as 10): a declaration that is just
a type-like name with no variable name following. -/
def c9Start : Parser := mkParser [Token.Ident 10, Token.Semicolon]

/-- Token stream of `interface Foo;` (name `Foo` interned as 10). -/
def c5IntfTokens : List TokenAndSpan :=
  [(Token.Keyword Kw.Interface, ⟨0, 1⟩), (Token.Ident 10, ⟨1, 2⟩), (Token.Semicolon, ⟨2, 3⟩)]

/-- The parser state right after the driver consumed the `interface` keyword. -/
def c5AfterIntfKw : Parser :=
  { input := ⟨[Except.ok (Token.Ident 10, ⟨1, 2⟩), Except.ok (Token.Semicolon, ⟨2, 3⟩)],
      ⟨100, 100⟩⟩,
    queue := [], diagnostics := [], last_span := ⟨0, 1⟩, calls := 1 }

theorem fillLoop_length : ∀ (fuel : Nat) (p : Parser) (k : Nat),
    p.input.tokens.length + k + 1 - p.queue.length < fuel →
    k < (Parser.fillLoop fuel p k).queue.length := by
  intro fuel
  induction fuel with
  | zero => intro p k h; omega
  | succ n ih =>
    intro p k h
    rw [Parser.fillLoop]
    by_cases hq : p.queue.length ≤ k
    · simp only [hq, if_true]
      match htk : p.input.tokens with
      | [] =>
        apply ih
        simp only [List.length_append, List.length_cons, List.length_nil]
        have := htk ▸ h
        simp only [htk, List.length_nil] at this ⊢
        omega
      | Except.ok ts :: rest =>
        apply ih
        simp only [List.length_append, List.length_cons, List.length_nil]
        have := htk ▸ h
        simp only [htk, List.length_cons] at this
        omega
      | Except.error d :: rest =>
        apply ih
        simp only [Parser.add_diag, List.length_cons]
        have := htk ▸ h
        simp only [htk, List.length_cons] at this
        omega
    · simp only [hq, if_false]
      omega

theorem ensure_queue_length (p : Parser) (k : Nat) :
    (p.hasEofBack = true ∧ p.ensure_queue_filled k = p) ∨
    k < (p.ensure_queue_filled k).queue.length := by
  unfold Parser.ensure_queue_filled
  by_cases he : p.hasEofBack
  · left; simp [he]
  · right
    simp only [he, Bool.false_eq_true, if_false]
    apply fillLoop_length
    omega

theorem hasEofBack_ne_nil (p : Parser) (h : p.hasEofBack = true) : p.queue ≠ [] := by
  intro hnil
  unfold Parser.hasEofBack at h
  rw [hnil] at h
  simp [List.getLast?] at h

theorem ensure_queue_ne_nil (p : Parser) (k : Nat) :
    (p.ensure_queue_filled k).queue ≠ [] := by
  rcases ensure_queue_length p k with ⟨he, heq⟩ | hlt
  · rw [heq]; exact hasEofBack_ne_nil p he
  · intro hnil
    rw [hnil] at hlt
    simp at hlt

theorem peekCore_isSome (p : Parser) (k : Nat) : (p.peekCore k).isSome = true := by
  unfold Parser.peekCore
  by_cases hlt : k < (p.ensure_queue_filled k).queue.length
  · simp only [hlt, if_true]
    rw [List.getElem?_eq_getElem hlt]
    rfl
  · simp only [hlt, if_false]
    rw [List.getLast?_isSome]
    exact ensure_queue_ne_nil p k

theorem bumpFilled_ne_nil (p : Parser) : p.bumpFilled.queue ≠ [] := by
  unfold Parser.bumpFilled
  by_cases he : p.queue.isEmpty = true
  · rw [if_pos he]
    exact ensure_queue_ne_nil p 1
  · rw [if_neg he]
    intro hnil
    apply he
    rw [hnil]
    rfl

/-- If the requested offset is already buffered, the refill is a no-op. -/
theorem ensure_of_lt (p : Parser) (k : Nat) (h : k < p.queue.length) :
    p.ensure_queue_filled k = p := by
  unfold Parser.ensure_queue_filled
  by_cases he : p.hasEofBack
  · simp [he]
  · simp only [he, Bool.false_eq_true, if_false]
    have h2 : p.input.tokens.length + k + 2 = (p.input.tokens.length + k + 1) + 1 := rfl
    rw [h2, Parser.fillLoop]
    simp [Nat.not_le.mpr h]

/-- Peeking at a nonempty queue returns its head and leaves the state unchanged. -/
theorem peek_cons (p : Parser) (ts : TokenAndSpan) (rest : List TokenAndSpan)
    (h : p.queue = ts :: rest) : p.peek 0 = (ts, p) := by
  unfold Parser.peek
  have hlt : 0 < p.queue.length := by rw [h]; simp
  rw [ensure_of_lt p 0 hlt]
  simp [h]

/-- Bumping a nonempty queue pops its head and records the head's span. -/
theorem bump_cons (p : Parser) (ts : TokenAndSpan) (rest : List TokenAndSpan)
    (h : p.queue = ts :: rest) : p.bump = { p with queue := rest, last_span := ts.2 } := by
  obtain ⟨inp, q, ds, ls, cl⟩ := p
  dsimp only at h
  subst h
  rfl

/-! ### Eof-tail lemmas: the cursor once the end-of-input token is buffered -/

theorem hasEofBack_of_getLast (p : Parser) (sp : Span)
    (h : p.queue.getLast? = some (Token.Eof, sp)) : p.hasEofBack = true := by
  unfold Parser.hasEofBack
  rw [h]

theorem ensure_eof_tail (p : Parser) (sp : Span) (k : Nat)
    (h : p.queue.getLast? = some (Token.Eof, sp)) : p.ensure_queue_filled k = p := by
  unfold Parser.ensure_queue_filled
  rw [hasEofBack_of_getLast p sp h]
  simp

theorem peek_eof_tail_state (p : Parser) (sp : Span) (k : Nat)
    (h : p.queue.getLast? = some (Token.Eof, sp)) : (p.peek k).2 = p := by
  unfold Parser.peek
  rw [ensure_eof_tail p sp k h]

theorem peek_eof_tail_val (p : Parser) (sp : Span) (k : Nat)
    (h : p.queue.getLast? = some (Token.Eof, sp)) (hk : p.queue.length ≤ k + 1) :
    (p.peek k).1 = (Token.Eof, sp) := by
  unfold Parser.peek
  rw [ensure_eof_tail p sp k h]
  dsimp only
  by_cases hlt : k < p.queue.length
  · rw [if_pos hlt]
    have hkl : k = p.queue.length - 1 := by omega
    rw [hkl, ← List.getLast?_eq_getElem?, h]
    rfl
  · rw [if_neg hlt, h]
    rfl

theorem bump_eof_tail (p : Parser) (sp : Span)
    (h : p.queue.getLast? = some (Token.Eof, sp)) (hlen : 2 ≤ p.queue.length) :
    p.bump.queue.getLast? = some (Token.Eof, sp) ∧ p.bump.calls = p.calls := by
  match hq : p.queue with
  | [] => rw [hq] at hlen; simp at hlen
  | [x] => rw [hq] at hlen; simp at hlen
  | x :: y :: t =>
    rw [bump_cons p x (y :: t) hq]
    refine ⟨?_, rfl⟩
    rw [hq, List.getLast?_cons_cons] at h
    exact h

theorem bump_calls_of_ne_nil (p : Parser) (h : p.queue ≠ []) : p.bump.calls = p.calls := by
  match hq : p.queue with
  | [] => exact absurd hq h
  | x :: t => rw [bump_cons p x t hq]

/-! ### Exhausted-lexer states and the divergence of the interface body loop -/

theorem try_dimension_stuck (fuel : Nat) (es ls : Span) (ds : List Diag) (c : Nat) :
    try_dimension fuel (stuckP es ls ds c [(Token.Eof, es)]) = none ∨
    try_dimension fuel (stuckP es ls ds c [(Token.Eof, es)]) =
      some (Except.ok none, stuckP es ls ds c [(Token.Eof, es)]) :=
  match fuel with
  | 0 => Or.inl rfl
  | _ + 1 => Or.inr rfl

theorem parse_optional_dimensions_stuck (fuel : Nat) (es ls : Span) (ds : List Diag) (c : Nat) :
    parse_optional_dimensions fuel (stuckP es ls ds c [(Token.Eof, es)]) = none ∨
    parse_optional_dimensions fuel (stuckP es ls ds c [(Token.Eof, es)]) =
      some (Except.ok ([], INVALID_SPAN), stuckP es ls ds c [(Token.Eof, es)]) :=
  match fuel with
  | 0 => Or.inl rfl
  | 1 => Or.inl rfl
  | _ + 2 => Or.inr rfl

theorem parse_data_type_stuck (fuel : Nat) (es ls : Span) (ds : List Diag) (c : Nat) :
    parse_data_type fuel (stuckP es ls ds c [(Token.Eof, es)]) = none ∨
    parse_data_type fuel (stuckP es ls ds c [(Token.Eof, es)]) =
      some (Except.ok
        { span := es, data := TypeData.ImplicitType, sign := TypeSign.None, dims := [] },
        stuckP es ls ds c [(Token.Eof, es)]) :=
  match fuel with
  | 0 => Or.inl rfl
  | 1 => Or.inl rfl
  | 2 => Or.inl rfl
  | _ + 3 => Or.inr rfl

theorem try_hierarchy_item_stuck (fuel : Nat) (es ls : Span) (ds : List Diag) (c : Nat) :
    try_hierarchy_item fuel (stuckP es ls ds c [(Token.Eof, es)]) = none ∨
    try_hierarchy_item fuel (stuckP es ls ds c [(Token.Eof, es)]) =
      some (some (Except.error ()),
        stuckP es es
          (ds ++ [(Diag.error "Expected variable or instance name").span es]) c []) :=
  match fuel with
  | 0 => Or.inl rfl
  | 1 => Or.inl rfl
  | 2 => Or.inl rfl
  | 3 => Or.inl rfl
  | _ + 4 => Or.inr rfl

theorem recover_stuck_empty (fuel : Nat) (es ls : Span) (ds : List Diag) (c : Nat)
    (terms : List Token) (eat : Bool) :
    Parser.recover fuel (stuckP es ls ds c []) terms eat = none ∨
    Parser.recover fuel (stuckP es ls ds c []) terms eat =
      some (stuckP es ls ds (c + 1) [(Token.Eof, es)]) :=
  match fuel with
  | 0 => Or.inl rfl
  | _ + 1 => Or.inr rfl

/-- The interface body loop never terminates once the lexer is exhausted and
no `endinterface` remains: for EVERY fuel value it runs out of fuel.  (The
module body loop guards against `Eof`; this one does not.) -/
theorem intf_body_loop_stuck : ∀ (fuel : Nat) (es ls : Span) (ds : List Diag) (c : Nat),
    intf_body_loop fuel (stuckP es ls ds c [(Token.Eof, es)]) = none ∧
    intf_body_loop fuel (stuckP es ls ds c []) = none := by
  intro fuel
  induction fuel with
  | zero => intro es ls ds c; exact ⟨rfl, rfl⟩
  | succ n ih =>
    intro es ls ds c
    have key : ∀ (ds' : List Diag) (c' : Nat),
        (match try_hierarchy_item n (stuckP es ls ds' c' [(Token.Eof, es)]) with
         | none => none
         | some (some (Except.ok _), p) => intf_body_loop n p
         | some (some (Except.error _), p) =>
           (match Parser.recover n p [Token.Keyword Kw.Endinterface] false with
            | none => none
            | some p => intf_body_loop n p)
         | some (none, p) =>
           (match p.peek 0 with
            | ((_, q), p) =>
              match Parser.recover n
                  (p.add_diag ((Diag.error "Expected hierarchy item").span q))
                  [Token.Keyword Kw.Endinterface] false with
              | none => none
              | some p => intf_body_loop n p)) = none := by
      intro ds' c'
      rcases try_hierarchy_item_stuck n es ls ds' c' with h | h
      · rw [h]
      · rw [h]
        show (match Parser.recover n
            (stuckP es es (ds' ++ [(Diag.error "Expected variable or instance name").span es])
              c' []) [Token.Keyword Kw.Endinterface] false with
          | none => none
          | some p => intf_body_loop n p) = none
        rcases recover_stuck_empty n es es
            (ds' ++ [(Diag.error "Expected variable or instance name").span es]) c'
            [Token.Keyword Kw.Endinterface] false with hr | hr
        · rw [hr]
        · rw [hr]
          exact (ih es es _ _).1
    constructor
    · have hunf : intf_body_loop (n + 1) (stuckP es ls ds c [(Token.Eof, es)]) =
          (match try_hierarchy_item n (stuckP es ls ds c [(Token.Eof, es)]) with
           | none => none
           | some (some (Except.ok _), p) => intf_body_loop n p
           | some (some (Except.error _), p) =>
             (match Parser.recover n p [Token.Keyword Kw.Endinterface] false with
              | none => none
              | some p => intf_body_loop n p)
           | some (none, p) =>
             (match p.peek 0 with
              | ((_, q), p) =>
                match Parser.recover n
                    (p.add_diag ((Diag.error "Expected hierarchy item").span q))
                    [Token.Keyword Kw.Endinterface] false with
                | none => none
                | some p => intf_body_loop n p)) := rfl
      rw [hunf]
      exact key ds c
    · have hunf : intf_body_loop (n + 1) (stuckP es ls ds c []) =
          (match try_hierarchy_item n (stuckP es ls ds (c + 1) [(Token.Eof, es)]) with
           | none => none
           | some (some (Except.ok _), p) => intf_body_loop n p
           | some (some (Except.error _), p) =>
             (match Parser.recover n p [Token.Keyword Kw.Endinterface] false with
              | none => none
              | some p => intf_body_loop n p)
           | some (none, p) =>
             (match p.peek 0 with
              | ((_, q), p) =>
                match Parser.recover n
                    (p.add_diag ((Diag.error "Expected hierarchy item").span q))
                    [Token.Keyword Kw.Endinterface] false with
                | none => none
                | some p => intf_body_loop n p)) := rfl
      rw [hunf]
      exact key ds (c + 1)

/-! ### The diverging input `interface Foo;` -/

theorem parse_interface_decl_c5 : ∀ fuel, parse_interface_decl fuel c5AfterIntfKw = none := by
  intro fuel
  match fuel with
  | 0 => rfl
  | n + 1 =>
    have hunf : parse_interface_decl (n + 1) c5AfterIntfKw =
        (match intf_body_loop n (stuckP ⟨100, 100⟩ ⟨2, 3⟩ [] 3 []) with
         | none => none
         | some p =>
           let p :=
             match p.try_eat (Token.Keyword Kw.Endinterface) with
             | (true, p) => p
             | (false, p) =>
               match p.peek 0 with
               | ((_, q), p) =>
                 p.add_diag
                   ((Diag.error "Missing endinterface keyword at the end").span q.endPoint)
           some (Except.ok
             { span := Span.expand ⟨0, 1⟩ p.last_span, lifetime := Lifetime.Static, name := 10,
               name_span := ⟨1, 2⟩, ports := [] }, p)) := rfl
    rw [hunf, (intf_body_loop_stuck n ⟨100, 100⟩ ⟨2, 3⟩ [] 3).2]

theorem parse_c5_none : ∀ fuel, parse fuel c5IntfTokens ⟨100, 100⟩ = none := by
  intro fuel
  match fuel with
  | 0 => rfl
  | n + 1 =>
    have hunf : parse (n + 1) c5IntfTokens ⟨100, 100⟩ =
        (match
          (match parse_interface_decl n c5AfterIntfKw with
           | none => none
           | some (Except.ok _, p) => source_text_loop n p
           | some (Except.error _, p) =>
             (match st_recover n p with
              | none => none
              | some p => source_text_loop n p)) with
         | none => none
         | some p =>
           some (if p.diagnostics.isEmpty then Except.ok ()
                 else Except.error "assertion failed: p.get_diagnostics().is_empty()")) := rfl
    rw [hunf, parse_interface_decl_c5 n]

/-! ### One-step behavior of balanced recovery -/

theorem rb_loop_terminator_empty_stack (fuel : Nat) (p p1 : Parser) (t : Token) (sp : Span)
    (terms : List Token) (h : p.peek 0 = ((t, sp), p1)) (ht : t ∈ terms) :
    Parser.recover_balanced_loop (fuel + 1) p terms false [] = some p1 := by
  rw [Parser.recover_balanced_loop, h]
  exact if_pos ⟨rfl, ht⟩

theorem rb_loop_nested_terminator (fuel : Nat) (p p1 : Parser) (t : Token) (sp : Span)
    (terms : List Token) (eat : Bool) (d : Delim) (dstack : List Delim)
    (h : p.peek 0 = ((t, sp), p1)) (ht : t ∈ terms)
    (hopen : ∀ x, t ≠ Token.OpenDelim x) (hclose : ∀ x, t ≠ Token.CloseDelim x)
    (heof : t ≠ Token.Eof) :
    Parser.recover_balanced_loop (fuel + 1) p terms eat (d :: dstack) =
      Parser.recover_balanced_loop fuel p1.bump terms eat (d :: dstack) := by
  have hns : ¬((d :: dstack).isEmpty = true ∧ t ∈ terms) := by simp
  rw [Parser.recover_balanced_loop, h]
  cases t <;>
    first
      | exact absurd rfl (hopen _)
      | exact absurd rfl (hclose _)
      | exact absurd rfl heof
      | exact if_neg hns

theorem rb_loop_mismatched_close (fuel : Nat) (p p1 : Parser) (x : Delim) (sp : Span)
    (terms : List Token) (eat : Bool) (y : Delim) (ystack : List Delim)
    (h : p.peek 0 = ((Token.CloseDelim x, sp), p1)) (hne : ¬(y = x)) :
    Parser.recover_balanced_loop (fuel + 1) p terms eat (y :: ystack) =
      some (p1.add_diag ((Diag.error
        "Found closing delimiter which is not the complement to the previous opening delimiter").span sp)) := by
  have hns : ¬((y :: ystack).isEmpty = true ∧ Token.CloseDelim x ∈ terms) := by simp
  rw [Parser.recover_balanced_loop, h]
  exact (if_neg hns).trans (if_neg hne)

theorem rb_loop_unmatched_close (fuel : Nat) (p p1 : Parser) (x : Delim) (sp : Span)
    (terms : List Token) (eat : Bool)
    (h : p.peek 0 = ((Token.CloseDelim x, sp), p1)) (ht : Token.CloseDelim x ∉ terms) :
    Parser.recover_balanced_loop (fuel + 1) p terms eat [] =
      some (p1.add_diag ((Diag.error
        "Found closing delimiter without an earlier opening delimiter").span sp)) := by
  have hns : ¬((List.nil (α := Delim)).isEmpty = true ∧ Token.CloseDelim x ∈ terms) := by
    simp [ht]
  rw [Parser.recover_balanced_loop, h]
  exact if_neg hns

/-! ### Trailing-comma separator steps -/

theorem ppl_sep_trailing_comma (fuel : Nat) (p : Parser) (sp sp2 : Span)
    (rest : List TokenAndSpan)
    (h : p.queue = (Token.Comma, sp) :: (Token.CloseDelim Delim.Paren, sp2) :: rest) :
    ppl_sep (fuel + 1) p =
      some (SepAct.stop,
        { p with queue := (Token.CloseDelim Delim.Paren, sp2) :: rest, last_span := sp,
                 diagnostics :=
                   p.diagnostics ++ [(Diag.warning "Superfluous trailing comma").span sp] }) := by
  have hpeek := peek_cons p (Token.Comma, sp) ((Token.CloseDelim Delim.Paren, sp2) :: rest) h
  have hbump := bump_cons p (Token.Comma, sp) ((Token.CloseDelim Delim.Paren, sp2) :: rest) h
  have hpeek2 := peek_cons
    { p with queue := (Token.CloseDelim Delim.Paren, sp2) :: rest, last_span := sp }
    (Token.CloseDelim Delim.Paren, sp2) rest rfl
  simp only [ppl_sep, hpeek, hbump, hpeek2]
  rfl

theorem pl_sep_trailing_comma (fuel : Nat) (p : Parser) (sp sp2 : Span)
    (rest : List TokenAndSpan) (v : List Port)
    (h : p.queue = (Token.Comma, sp) :: (Token.CloseDelim Delim.Paren, sp2) :: rest) :
    pl_sep (fuel + 1) p v =
      some (Except.ok v,
        { p with queue := rest, last_span := sp2,
                 diagnostics :=
                   p.diagnostics ++ [(Diag.warning "Superfluous trailing comma").span sp] }) := by
  have hpeek := peek_cons p (Token.Comma, sp) ((Token.CloseDelim Delim.Paren, sp2) :: rest) h
  have hbump : p.bump =
      { p with queue := (Token.CloseDelim Delim.Paren, sp2) :: rest, last_span := sp } := by
    rw [bump_cons p (Token.Comma, sp) ((Token.CloseDelim Delim.Paren, sp2) :: rest) h]
  have hpeek2 := peek_cons
    { p with queue := (Token.CloseDelim Delim.Paren, sp2) :: rest, last_span := sp }
    (Token.CloseDelim Delim.Paren, sp2) rest rfl
  have hpeek3 := peek_cons
    { p with queue := (Token.CloseDelim Delim.Paren, sp2) :: rest, last_span := sp,
             diagnostics :=
               p.diagnostics ++ [(Diag.warning "Superfluous trailing comma").span sp] }
    (Token.CloseDelim Delim.Paren, sp2) rest rfl
  have hbump3 : Parser.bump
      { p with queue := (Token.CloseDelim Delim.Paren, sp2) :: rest, last_span := sp,
               diagnostics :=
                 p.diagnostics ++ [(Diag.warning "Superfluous trailing comma").span sp] } =
      { p with queue := rest, last_span := sp2,
               diagnostics :=
                 p.diagnostics ++ [(Diag.warning "Superfluous trailing comma").span sp] } := by
    rw [bump_cons _ (Token.CloseDelim Delim.Paren, sp2) rest rfl]
  simp only [pl_sep, hpeek, hbump, hpeek2, pl_finish, Parser.require_reported, Parser.require,
    Parser.add_diag, hpeek3, hbump3]
  rfl

/-! ## Claim theorems -/

/-- C1: the claim says a port that omits direction, kind and type inherits all
three from the previous port, so `(input bit a, b)` should yield a port `b`
equal in those fields to `a`.  The code disagrees: `parse_port` always wraps
the parsed data type in `Some`, so the `ty.is_none()` conjunct of the
inheritance test (source line 1625) can never hold, and on this very input the
parser emits "Ports with implicit data types not yet supported" and drops
port `b`: only port `a` (name 1) is produced, with exactly that one error
diagnostic.  This contradicts the function's own doc comment ("ports inherit
certain information from their predecessor if omitted") and the explicit TODO
above the failing branch. -/
theorem c1_no_port_inheritance :
    (parse_port_list 50 c1Start).map
      (fun rp => (portListNames rp.1, rp.2.diagnostics)) =
    some (some [1],
      [(Diag.error "Ports with implicit data types not yet supported").span ⟨5, 6⟩]) := rfl

/-- C2: the claim says the top-level `parse` always returns normally with the
accumulated diagnostics.  The code instead ends `parse` with
`assert!(p.get_diagnostics().is_empty())`, so any malformed input — here the
single token `endmodule`, which produces one fatal diagnostic — makes `parse`
panic.  The parsing machinery itself (`parse_source_text`) does run to
completion with the accumulated diagnostic list, which shows the assert is
the sole point of failure. -/
theorem c2_parse_asserts_on_diagnostics :
    parse 20 c2Tokens ⟨100, 100⟩ =
      some (Except.error "assertion failed: p.get_diagnostics().is_empty()") ∧
    (parse_source_text 20 (Parser.new c2Tokens ⟨100, 100⟩)).map
      (fun p => (warnCount p.diagnostics, errCount p.diagnostics)) = some (0, 1) :=
  ⟨rfl, rfl⟩

/-- C3 counterexample: from a state whose queue tail (indeed whole queue) is
the end-of-input token, the operation sequence advance-then-peek performs a
further lexer call (the ghost `calls` counter increases), refuting "no further
lexer calls occur ... after any sequence of peek and advance operations". -/
theorem c3_counterexample :
    c3cexStart.queue.getLast? = some (Token.Eof, ⟨9, 9⟩) ∧
    ((c3cexStart.bump.peek 0).2).calls ≠ c3cexStart.calls :=
  ⟨rfl, by decide⟩

/-- C3 (amended): while the end-of-input token is the tail of the queue,
`peek` makes no lexer call and leaves the state unchanged, `peek k` returns
that same Eof token/span for every offset at or beyond the tail, and `bump`
makes no lexer call while the queue is nonempty and preserves the Eof tail as
long as at least two tokens remain.  (Consuming the Eof itself empties the
queue, after which the next peek does call the lexer again — the
counterexample above — so the original unrestricted claim fails.) -/
theorem c3_eof_tail_amended (p : Parser) (sp : Span)
    (h : p.queue.getLast? = some (Token.Eof, sp)) :
    (∀ k, (p.peek k).2 = p) ∧
    (∀ k, p.queue.length ≤ k + 1 → (p.peek k).1 = (Token.Eof, sp)) ∧
    (p.queue ≠ [] → p.bump.calls = p.calls) ∧
    (2 ≤ p.queue.length → p.bump.queue.getLast? = some (Token.Eof, sp)) :=
  ⟨fun k => peek_eof_tail_state p sp k h,
   fun k hk => peek_eof_tail_val p sp k h hk,
   fun hne => bump_calls_of_ne_nil p hne,
   fun hlen => (bump_eof_tail p sp h hlen).1⟩

/-- C3 witness: the amended theorem applied at a concrete two-token queue
whose tail is the end-of-input token, at offset 3. -/
theorem c3_eof_tail_amended_witness :
    (c3wP.peek 3).2 = c3wP ∧ (c3wP.peek 3).1 = (Token.Eof, ⟨9, 9⟩) ∧
    c3wP.bump.calls = c3wP.calls ∧
    c3wP.bump.queue.getLast? = some (Token.Eof, ⟨9, 9⟩) := by
  obtain ⟨h1, h2, h3, h4⟩ := c3_eof_tail_amended c3wP ⟨9, 9⟩ rfl
  exact ⟨h1 3, h2 3 (by decide), h3 (by decide), h4 (by decide)⟩

/-- C4 counterexample: on the claim's own input
`#( parameter bad = (1+ , parameter ok = 2 )` the balanced recovery invoked at
the inner `(` does NOT stop at any comma: the final `)` balances the inner
`(`, no comma follows it, and recovery runs to end of input (next token Eof,
which is not a comma), consuming `parameter ok = 2 )` along the way. -/
theorem c4_counterexample :
    (Parser.recover_balanced 50 c4Start [Token.Comma, Token.CloseDelim Delim.Paren] false).map
      (fun p => (p.peek 0).1.1) = some Token.Eof ∧
    ¬(Token.Eof = Token.Comma) :=
  ⟨rfl, by decide⟩

/-- C4 (amended): balanced-skip recovery honors a terminator only while the
open-delimiter stack is empty; a terminator seen with a nonempty stack (and
not itself a delimiter or Eof) never ends recovery — the loop just skips it;
a closing delimiter that mismatches the top of the stack, or arrives with an
empty stack without being a terminator, emits an error diagnostic and stops
recovery early without consuming it.  On the specific input
`#( parameter bad = (1+ , parameter ok = 2 )` recovery skips the comma inside
the unbalanced parenthesis but then runs to end of input (adding no
diagnostics), because the final `)` balances the inner `(` and no comma
remains outside it. -/
theorem c4_balanced_recovery_amended :
    (∀ (fuel : Nat) (p p1 : Parser) (t : Token) (sp : Span) (terms : List Token),
      p.peek 0 = ((t, sp), p1) → t ∈ terms →
      Parser.recover_balanced_loop (fuel + 1) p terms false [] = some p1) ∧
    (∀ (fuel : Nat) (p p1 : Parser) (t : Token) (sp : Span) (terms : List Token) (eat : Bool)
       (d : Delim) (dstack : List Delim),
      p.peek 0 = ((t, sp), p1) → t ∈ terms →
      (∀ x, t ≠ Token.OpenDelim x) → (∀ x, t ≠ Token.CloseDelim x) → t ≠ Token.Eof →
      Parser.recover_balanced_loop (fuel + 1) p terms eat (d :: dstack) =
        Parser.recover_balanced_loop fuel p1.bump terms eat (d :: dstack)) ∧
    (∀ (fuel : Nat) (p p1 : Parser) (x : Delim) (sp : Span) (terms : List Token) (eat : Bool)
       (y : Delim) (ystack : List Delim),
      p.peek 0 = ((Token.CloseDelim x, sp), p1) → ¬(y = x) →
      Parser.recover_balanced_loop (fuel + 1) p terms eat (y :: ystack) =
        some (p1.add_diag ((Diag.error
          "Found closing delimiter which is not the complement to the previous opening delimiter").span sp))) ∧
    (∀ (fuel : Nat) (p p1 : Parser) (x : Delim) (sp : Span) (terms : List Token) (eat : Bool),
      p.peek 0 = ((Token.CloseDelim x, sp), p1) → Token.CloseDelim x ∉ terms →
      Parser.recover_balanced_loop (fuel + 1) p terms eat [] =
        some (p1.add_diag ((Diag.error
          "Found closing delimiter without an earlier opening delimiter").span sp))) ∧
    ((Parser.recover_balanced 50 c4Start [Token.Comma, Token.CloseDelim Delim.Paren] false).map
       (fun p => ((p.peek 0).1.1, p.diagnostics)) = some (Token.Eof, [])) :=
  ⟨rb_loop_terminator_empty_stack, rb_loop_nested_terminator, rb_loop_mismatched_close,
   rb_loop_unmatched_close, rfl⟩

/-- C4 witness: the four universal parts of the amended theorem applied at
concrete one-token states, plus its concrete-run part. -/
theorem c4_balanced_recovery_amended_witness :
    Parser.recover_balanced_loop 4 c4wA [Token.Comma] false [] = some c4wA ∧
    Parser.recover_balanced_loop 4 c4wA [Token.Comma] false [Delim.Paren] =
      Parser.recover_balanced_loop 3 c4wA.bump [Token.Comma] false [Delim.Paren] ∧
    Parser.recover_balanced_loop 4 c4wC [] false [Delim.Paren] =
      some (c4wC.add_diag ((Diag.error
        "Found closing delimiter which is not the complement to the previous opening delimiter").span ⟨0, 1⟩)) ∧
    Parser.recover_balanced_loop 4 c4wD [Token.Comma] false [] =
      some (c4wD.add_diag ((Diag.error
        "Found closing delimiter without an earlier opening delimiter").span ⟨0, 1⟩)) ∧
    (Parser.recover_balanced 50 c4Start [Token.Comma, Token.CloseDelim Delim.Paren] false).map
      (fun p => ((p.peek 0).1.1, p.diagnostics)) = some (Token.Eof, []) := by
  obtain ⟨hA, hB, hC, hD, hE⟩ := c4_balanced_recovery_amended
  refine ⟨hA 3 c4wA c4wA Token.Comma ⟨0, 1⟩ [Token.Comma] rfl (by decide),
          hB 3 c4wA c4wA Token.Comma ⟨0, 1⟩ [Token.Comma] false Delim.Paren [] rfl (by decide)
            (fun _ h => nomatch h) (fun _ h => nomatch h) (fun h => nomatch h),
          hC 3 c4wC c4wC Delim.Brack ⟨0, 1⟩ [] false Delim.Paren [] rfl (by decide),
          hD 3 c4wD c4wD Delim.Paren ⟨0, 1⟩ [Token.Comma] false rfl (by decide),
          hE⟩

/-- C5: the claim says module AND interface body parsing terminates at the
matching end keyword or at end of input.  The module body loop
(`mod_body_loop`) does guard against Eof — on
`module Foo; undefined_construct endmodule` one module declaration named 10
is produced with two error diagnostics and parsing terminates — but the
interface body loop has no Eof guard, and on `interface Foo;` (missing
`endinterface`) the whole parse diverges: it returns fuel-exhaustion `none`
for EVERY fuel value.  The dead "Missing endinterface" diagnostic after that
loop shows termination at Eof was the intent. -/
theorem c5_interface_body_divergence :
    (∀ fuel, parse fuel c5IntfTokens ⟨100, 100⟩ = none) ∧
    (parse_module_decl 50 c5ModStart).map
      (fun rp => (modDeclNameOf rp.1, errCount rp.2.diagnostics, warnCount rp.2.diagnostics)) =
      some (some 10, 2, 0) :=
  ⟨parse_c5_none, rfl⟩

/-- C6: a superfluous trailing comma immediately before the closing delimiter
is a warning and never an error.  Universally: whenever the parameter-port
separator check or the port-list separator check sees a comma followed
directly by the closing parenthesis, it appends exactly one warning
diagnostic (and nothing else) and ends the list.  Concretely, each of the six
comma-separated list parsers — parameter ports `#(parameter bar = 32,)`,
ports `(input bit a,)`, parameter assignments `#(1,)`, modport items
`modport foo (input a),;`, port connections `(x,)` and concatenations
`{1,}` — succeeds with exactly one warning and zero errors. -/
theorem c6_trailing_comma_warning :
    (∀ (fuel : Nat) (p : Parser) (sp sp2 : Span) (rest : List TokenAndSpan),
      p.queue = (Token.Comma, sp) :: (Token.CloseDelim Delim.Paren, sp2) :: rest →
      ppl_sep (fuel + 1) p =
        some (SepAct.stop,
          { p with queue := (Token.CloseDelim Delim.Paren, sp2) :: rest, last_span := sp,
                   diagnostics :=
                     p.diagnostics ++ [(Diag.warning "Superfluous trailing comma").span sp] })) ∧
    (∀ (fuel : Nat) (p : Parser) (sp sp2 : Span) (rest : List TokenAndSpan) (v : List Port),
      p.queue = (Token.Comma, sp) :: (Token.CloseDelim Delim.Paren, sp2) :: rest →
      pl_sep (fuel + 1) p v =
        some (Except.ok v,
          { p with queue := rest, last_span := sp2,
                   diagnostics :=
                     p.diagnostics ++ [(Diag.warning "Superfluous trailing comma").span sp] })) ∧
    ((parse_parameter_port_list 50 c6PplStart).map
       (fun rp => (resultOk rp.1, warnCount rp.2.diagnostics, errCount rp.2.diagnostics)) =
     some (true, 1, 0)) ∧
    ((parse_port_list 50 c6PlStart).map
       (fun rp => (resultOk rp.1, warnCount rp.2.diagnostics, errCount rp.2.diagnostics)) =
     some (true, 1, 0)) ∧
    ((parse_parameter_assignments 50 c6PpaStart).map
       (fun rp => (resultOk rp.1, warnCount rp.2.diagnostics, errCount rp.2.diagnostics)) =
     some (true, 1, 0)) ∧
    ((parse_modport_decl 50 c6ModportStart).map
       (fun rp => (resultOk rp.1, warnCount rp.2.diagnostics, errCount rp.2.diagnostics)) =
     some (true, 1, 0)) ∧
    ((parse_list_of_port_connections 50 c6ConnStart).map
       (fun rp => (resultOk rp.1, warnCount rp.2.diagnostics, errCount rp.2.diagnostics)) =
     some (true, 1, 0)) ∧
    ((parse_concat_expr 50 c6ConcatStart).map
       (fun rp => (resultOk rp.1, warnCount rp.2.diagnostics, errCount rp.2.diagnostics)) =
     some (true, 1, 0)) :=
  ⟨ppl_sep_trailing_comma, pl_sep_trailing_comma, rfl, rfl, rfl, rfl, rfl, rfl⟩

/-- C6 witness: both universal separator steps applied at a concrete queue
holding a comma directly followed by the closing parenthesis. -/
theorem c6_trailing_comma_warning_witness :
    ppl_sep 4 (qParser [(Token.Comma, ⟨0, 1⟩), (Token.CloseDelim Delim.Paren, ⟨1, 2⟩)]) =
      some (SepAct.stop,
        { qParser [(Token.Comma, ⟨0, 1⟩), (Token.CloseDelim Delim.Paren, ⟨1, 2⟩)] with
            queue := [(Token.CloseDelim Delim.Paren, ⟨1, 2⟩)], last_span := ⟨0, 1⟩,
            diagnostics := [(Diag.warning "Superfluous trailing comma").span ⟨0, 1⟩] }) ∧
    pl_sep 4 (qParser [(Token.Comma, ⟨0, 1⟩), (Token.CloseDelim Delim.Paren, ⟨1, 2⟩)]) [] =
      some (Except.ok [],
        { qParser [(Token.Comma, ⟨0, 1⟩), (Token.CloseDelim Delim.Paren, ⟨1, 2⟩)] with
            queue := [], last_span := ⟨1, 2⟩,
            diagnostics := [(Diag.warning "Superfluous trailing comma").span ⟨0, 1⟩] }) := by
  obtain ⟨h1, h2, _⟩ := c6_trailing_comma_warning
  exact ⟨h1 3 _ ⟨0, 1⟩ ⟨1, 2⟩ [] rfl, h2 3 _ ⟨0, 1⟩ ⟨1, 2⟩ [] [] rfl⟩

/-- C7: the claim says `foo: begin end foo` succeeds silently,
`foo: begin end bar` yields exactly one error naming both labels, and
`begin end bar` yields exactly one error about a close label with no open
label.  The code never reaches the close-label check on the success path:
`parse_block`'s statement loop breaks WITHOUT consuming the terminator
(`end`), so the `try_eat(Colon)` that introduces the close label looks at the
`end` token itself and always fails there.  All three inputs therefore parse
successfully with ZERO diagnostics, the trailing `end`-label tokens left
unconsumed (the next token after each parse is still the `end` delimiter) —
contradicting the code's own comment "Consume the optional block label after
the terminator and verify that it matches". -/
theorem c7_block_close_label_unreachable :
    ((parse_stmt 50 c7StartMismatch).map
       (fun rp => (stmtLabelOf rp.1, rp.2.diagnostics, (rp.2.peek 0).1.1)) =
     some (some (some 10), [], Token.CloseDelim Delim.Bgend)) ∧
    ((parse_stmt 50 c7StartMatch).map
       (fun rp => (stmtLabelOf rp.1, rp.2.diagnostics, (rp.2.peek 0).1.1)) =
     some (some (some 10), [], Token.CloseDelim Delim.Bgend)) ∧
    ((parse_stmt 50 c7StartNoOpen).map
       (fun rp => (stmtLabelOf rp.1, rp.2.diagnostics, (rp.2.peek 0).1.1)) =
     some (some none, [], Token.CloseDelim Delim.Bgend)) :=
  ⟨rfl, rfl, rfl⟩

/-- C8 counterexample: `integer` parses to core sort `IntType` while
`longint` parses to `LongIntType`, and these sorts differ — refuting
"integer and longint map to the same internal type sort". -/
theorem c8_counterexample :
    (parse_data_type 10 (mkParser [Token.Keyword Kw.Integer])).map
      (fun rp => typeDataOf rp.1) = some (some TypeData.IntType) ∧
    (parse_data_type 10 (mkParser [Token.Keyword Kw.Longint])).map
      (fun rp => typeDataOf rp.1) = some (some TypeData.LongIntType) ∧
    ¬(TypeData.IntType = TypeData.LongIntType) :=
  ⟨rfl, rfl, by decide⟩

/-- C8 (amended): it is the keywords `integer` and `int` that the type parser
maps to the same internal sort: in any parser state whose next token is
`integer`, replacing that token by `int` leaves the result of
`parse_data_type` literally unchanged (both map to `IntType` and consume one
token), while `longint` yields the distinct `LongIntType` (see the
counterexample). -/
theorem c8_integer_int_same_sort (fuel : Nat) (p1 : Parser) (sp : Span)
    (rest : List TokenAndSpan) (h : p1.queue = (Token.Keyword Kw.Integer, sp) :: rest) :
    parse_data_type fuel p1 =
    parse_data_type fuel { p1 with queue := (Token.Keyword Kw.Int, sp) :: rest } := by
  cases fuel with
  | zero => rfl
  | succ n =>
    have h2 : ({ p1 with queue := (Token.Keyword Kw.Int, sp) :: rest } : Parser).queue =
        (Token.Keyword Kw.Int, sp) :: rest := rfl
    have hpk1 := peek_cons p1 (Token.Keyword Kw.Integer, sp) rest h
    have hpk2 := peek_cons _ (Token.Keyword Kw.Int, sp) rest h2
    have hb1 : p1.bump = { p1 with queue := rest, last_span := sp } := by
      rw [bump_cons p1 (Token.Keyword Kw.Integer, sp) rest h]
    have hb2 : Parser.bump { p1 with queue := (Token.Keyword Kw.Int, sp) :: rest } =
        { p1 with queue := rest, last_span := sp } := by
      rw [bump_cons _ (Token.Keyword Kw.Int, sp) rest h2]
    simp [parse_data_type, hpk1, hpk2, hb1, hb2]

/-- C8 witness: the amended theorem applied at a concrete one-token queue. -/
theorem c8_integer_int_same_sort_witness :
    parse_data_type 5 (qParser [(Token.Keyword Kw.Integer, ⟨0, 1⟩)]) =
    parse_data_type 5
      { qParser [(Token.Keyword Kw.Integer, ⟨0, 1⟩)] with
          queue := [(Token.Keyword Kw.Int, ⟨0, 1⟩)] } :=
  c8_integer_int_same_sort 5 (qParser [(Token.Keyword Kw.Integer, ⟨0, 1⟩)]) ⟨0, 1⟩ [] rfl

/-- C9: the claim says a declaration consisting only of a type-like name
(`foo;`) is re-interpreted as a variable of implicit type.  The code leaves
this as a TODO (source lines 630-632): the already-parsed type `foo` is NOT
reclassified, `eat_ident_or` then fails at the semicolon, and the hierarchy
item fails with the error "Expected variable or instance name" — no variable
declaration is produced, contradicting the file's own header comment mapping
`foo [7:0];` to an implicit-type declaration. -/
theorem c9_implicit_type_reinterpretation_missing :
    (try_hierarchy_item 50 c9Start).map (fun rp => (rp.1, rp.2.diagnostics)) =
    some (some (Except.error ()),
      [(Diag.error "Expected variable or instance name").span ⟨1, 2⟩]) := rfl

/-- C10: `peek` and `bump` are total in every parser state (the lexer model
yields the end-of-input token forever once exhausted, per the spec's
assumption): after the queue-fill step the queue is nonempty, so the
`expect`-unwrap of the queue's back element inside `peek` never fails
(`peekCore` is always `some`), and the pop of `bump` never underflows. -/
theorem c10_peek_bump_total (p : Parser) (k : Nat) :
    (p.ensure_queue_filled k).queue ≠ [] ∧ (p.peekCore k).isSome = true ∧
    p.bumpFilled.queue ≠ [] :=
  ⟨ensure_queue_ne_nil p k, peekCore_isSome p k, bumpFilled_ne_nil p⟩

end Moore
